import Mathlib

/-!
Verification development for the crossflow PCHE reduced-order model
(`PCHE_5_plate_unit.py`).  The Python class `crossflow_PCHE` is shallowly
embedded: numpy 2-D arrays become functions `Fin rows → Fin cols → α`,
floating-point numbers become elements of a linear ordered field (`ℝ` for the
transcendental transport correlations, instantiated at `ℚ` for concrete
evaluations), and the mutable attributes of the Python object become fields of
an explicit state record threaded through the operations.
-/

set_option maxHeartbeats 1600000

namespace PCHE

/-- A 2-D mesh array of values (numpy array of shape `rows × columns`). -/
abbrev Grid (r c : ℕ) (α : Type) := Fin r → Fin c → α

/-- Per-species property-table record: the NASA heat-capacity polynomial
coefficients (low range `T ≤ 1000 K`, high range `T > 1000 K`) from
`thermo_oneline.dat` and the kinetic-theory parameters from `transport.dat`.
The species key is kept so that the water-vapour viscosity correction can test
for `H2O` like the source does. -/
structure Species (α : Type) where
  key : String
  a1low : α
  a2low : α
  a3low : α
  a4low : α
  a5low : α
  a1high : α
  a2high : α
  a3high : α
  a4high : α
  a5high : α
  Tmin : α
  epsOverKappa : α
  sigma : α
  dipole : α
  polarizability : α
  rotationalRelaxation : α
  MW : α
  shape : ℤ

/-- A stream descriptor: the four-element list `[composition dict, mass flow,
inlet temperature, inlet pressure]`.  The composition dict is embedded as a
finite map from a species (with its table data resolved) to its mass
fraction. -/
structure Stream (n : ℕ) (α : Type) where
  comp : Fin n → Species α × α
  mdot : α
  Tin : α
  Pin : α

/-- The ten named temperature grids produced by `unwrap_T`, in the fixed field
order of the flat state vector. -/
structure Temps (r c : ℕ) (α : Type) where
  utility1_T : Grid r c α
  reactant2_T : Grid r c α
  fuel3_T : Grid r c α
  reactant4_T : Grid r c α
  utility5_T : Grid r c α
  utilityPlate1_T : Grid r c α
  reactantPlate2_T : Grid r c α
  fuelPlate3_T : Grid r c α
  reactantPlate4_T : Grid r c α
  utilityPlate5_T : Grid r c α

/-- Index bound used by `unwrap_T`: cell `(i, j)` of block `m` of the flat
vector lies inside the vector of length `10·rows·columns`. -/
def blockLT {r c : ℕ} (m : ℕ) (hm : m < 10) (i : Fin r) (j : Fin c) :
    m * (r * c) + ((i : ℕ) * c + (j : ℕ)) < 10 * (r * c) := by
  have h1 : (i : ℕ) * c + (j : ℕ) < r * c := by
    calc (i : ℕ) * c + (j : ℕ) < (i : ℕ) * c + c := by
          exact Nat.add_lt_add_left j.isLt _
    _ = ((i : ℕ) + 1) * c := by ring
    _ ≤ r * c := Nat.mul_le_mul_right c i.isLt
  calc m * (r * c) + ((i : ℕ) * c + (j : ℕ)) < m * (r * c) + r * c := by omega
  _ = (m + 1) * (r * c) := by ring
  _ ≤ 10 * (r * c) := Nat.mul_le_mul_right _ (by omega)

/-- Embedding of `unwrap_T` (source lines 691-712): slice the flat vector into
ten consecutive `rows·columns` blocks and reshape each one row-major, in the
fixed order utility1, reactant2, fuel3, reactant4, utility5, then the five
plates in the same order. -/
def unwrap_T {r c : ℕ} {α : Type} (Tvector : Fin (10 * (r * c)) → α) :
    Temps r c α where
  utility1_T := fun i j => Tvector ⟨0 * (r * c) + ((i : ℕ) * c + (j : ℕ)), blockLT 0 (by omega) i j⟩
  reactant2_T := fun i j => Tvector ⟨1 * (r * c) + ((i : ℕ) * c + (j : ℕ)), blockLT 1 (by omega) i j⟩
  fuel3_T := fun i j => Tvector ⟨2 * (r * c) + ((i : ℕ) * c + (j : ℕ)), blockLT 2 (by omega) i j⟩
  reactant4_T := fun i j => Tvector ⟨3 * (r * c) + ((i : ℕ) * c + (j : ℕ)), blockLT 3 (by omega) i j⟩
  utility5_T := fun i j => Tvector ⟨4 * (r * c) + ((i : ℕ) * c + (j : ℕ)), blockLT 4 (by omega) i j⟩
  utilityPlate1_T := fun i j => Tvector ⟨5 * (r * c) + ((i : ℕ) * c + (j : ℕ)), blockLT 5 (by omega) i j⟩
  reactantPlate2_T := fun i j => Tvector ⟨6 * (r * c) + ((i : ℕ) * c + (j : ℕ)), blockLT 6 (by omega) i j⟩
  fuelPlate3_T := fun i j => Tvector ⟨7 * (r * c) + ((i : ℕ) * c + (j : ℕ)), blockLT 7 (by omega) i j⟩
  reactantPlate4_T := fun i j => Tvector ⟨8 * (r * c) + ((i : ℕ) * c + (j : ℕ)), blockLT 8 (by omega) i j⟩
  utilityPlate5_T := fun i j => Tvector ⟨9 * (r * c) + ((i : ℕ) * c + (j : ℕ)), blockLT 9 (by omega) i j⟩

/-- Row index of the cell addressed by flat index `k`: raveled offset
`k % (rows·columns)` divided by the column count. -/
def wrapI {r c : ℕ} (k : Fin (10 * (r * c))) : Fin r :=
  ⟨(k : ℕ) % (r * c) / c, by
    have hrc : 0 < r * c := by
      rcases Nat.eq_zero_or_pos (r * c) with h | h
      · exact absurd k.isLt (by simp [h])
      · exact h
    have hc : 0 < c := by
      rcases Nat.eq_zero_or_pos c with h | h
      · exact absurd hrc (by simp [h])
      · exact h
    exact (Nat.div_lt_iff_lt_mul hc).2 (Nat.mod_lt _ hrc)⟩

/-- Column index of the cell addressed by flat index `k`: raveled offset
`k % (rows·columns)` modulo the column count. -/
def wrapJ {r c : ℕ} (k : Fin (10 * (r * c))) : Fin c :=
  ⟨(k : ℕ) % (r * c) % c, by
    have hrc : 0 < r * c := by
      rcases Nat.eq_zero_or_pos (r * c) with h | h
      · exact absurd k.isLt (by simp [h])
      · exact h
    have hc : 0 < c := by
      rcases Nat.eq_zero_or_pos c with h | h
      · exact absurd hrc (by simp [h])
      · exact h
    exact Nat.mod_lt _ hc⟩

/-- Embedding of the packing side
`np.concatenate([g.ravel() for g in the ten grids])` (source lines 1015-1018):
flat index `k` addresses block `k / (rows·columns)` at raveled offset
`k % (rows·columns)`. -/
def wrap_T {r c : ℕ} {α : Type} (g : Temps r c α) : Fin (10 * (r * c)) → α :=
  fun k =>
  if (k : ℕ) / (r * c) = 0 then g.utility1_T (wrapI k) (wrapJ k)
  else if (k : ℕ) / (r * c) = 1 then g.reactant2_T (wrapI k) (wrapJ k)
  else if (k : ℕ) / (r * c) = 2 then g.fuel3_T (wrapI k) (wrapJ k)
  else if (k : ℕ) / (r * c) = 3 then g.reactant4_T (wrapI k) (wrapJ k)
  else if (k : ℕ) / (r * c) = 4 then g.utility5_T (wrapI k) (wrapJ k)
  else if (k : ℕ) / (r * c) = 5 then g.utilityPlate1_T (wrapI k) (wrapJ k)
  else if (k : ℕ) / (r * c) = 6 then g.reactantPlate2_T (wrapI k) (wrapJ k)
  else if (k : ℕ) / (r * c) = 7 then g.fuelPlate3_T (wrapI k) (wrapJ k)
  else if (k : ℕ) / (r * c) = 8 then g.reactantPlate4_T (wrapI k) (wrapJ k)
  else g.utilityPlate5_T (wrapI k) (wrapJ k)

/-- The part of the `crossflow_PCHE` object that `transient_solver` only
reads: the three stream descriptors, `self.dimensions`, every geometric and
physical constant derived once in `__init__`, the correlation constants, the
axial-position arrays, and the five stored pressure fields (which only
`update_pressures` writes). -/
structure Persist (r c nR nU nF : ℕ) (α : Type) where
  reactant : Stream nR α
  utility : Stream nU α
  fuel : Stream nF α
  dims : Fin 6 → α
  reactant_cs : α
  utility_cs : α
  fuel_cs : α
  reactant_dh : α
  utility_dh : α
  fuel_dh : α
  aspect : α
  deltax : α
  deltay : α
  deltaz : α
  reactant_Vcell : α
  utility_Vcell : α
  fuel_Vcell : α
  reactantPlate_Vcell : α
  utilityPlate_Vcell : α
  fuelPlate_Vcell : α
  hx_area_1 : α
  hx_area_2 : α
  hx_area_3 : α
  hx_area_4 : α
  hx_area_5 : α
  hx_area_6 : α
  hx_area_rP_x : α
  hx_area_rP_z : α
  hx_area_uP_x : α
  hx_area_uP_z : α
  hx_area_fP_x : α
  hx_area_fP_z : α
  metalrho : α
  metalcp : α
  metalk : α
  GC : α
  C1 : α
  C2 : α
  C3 : α
  C4 : α
  gamma : α
  reactant_L : Fin c → α
  utility_L : Fin r → α
  fuel_L : Fin c → α
  utility1_P : Grid r c α
  reactant2_P : Grid r c α
  fuel3_P : Grid r c α
  reactant4_P : Grid r c α
  utility5_P : Grid r c α

/-- The mutable attributes `transient_solver` (and its callees
`mol_frac_and_cp` and `properties`) overwrite on every call: the ten unpacked
temperature fields, the mixture heat-capacity coefficient grids, mole
fractions and mean molecular weights, and the per-pass property, flow and
heat-rate grids. -/
structure Cache (r c nR nU nF : ℕ) (α : Type) where
  utility1_T : Grid r c α
  reactant2_T : Grid r c α
  fuel3_T : Grid r c α
  reactant4_T : Grid r c α
  utility5_T : Grid r c α
  utilityPlate1_T : Grid r c α
  reactantPlate2_T : Grid r c α
  fuelPlate3_T : Grid r c α
  reactantPlate4_T : Grid r c α
  utilityPlate5_T : Grid r c α
  cp_a1_reactant2 : Grid r c α
  cp_a2_reactant2 : Grid r c α
  cp_a3_reactant2 : Grid r c α
  cp_a4_reactant2 : Grid r c α
  cp_a5_reactant2 : Grid r c α
  cp_a1_reactant4 : Grid r c α
  cp_a2_reactant4 : Grid r c α
  cp_a3_reactant4 : Grid r c α
  cp_a4_reactant4 : Grid r c α
  cp_a5_reactant4 : Grid r c α
  cp_a1_utility1 : Grid r c α
  cp_a2_utility1 : Grid r c α
  cp_a3_utility1 : Grid r c α
  cp_a4_utility1 : Grid r c α
  cp_a5_utility1 : Grid r c α
  cp_a1_utility5 : Grid r c α
  cp_a2_utility5 : Grid r c α
  cp_a3_utility5 : Grid r c α
  cp_a4_utility5 : Grid r c α
  cp_a5_utility5 : Grid r c α
  cp_a1_fuel3 : Grid r c α
  cp_a2_fuel3 : Grid r c α
  cp_a3_fuel3 : Grid r c α
  cp_a4_fuel3 : Grid r c α
  cp_a5_fuel3 : Grid r c α
  reactant_molefrac : Fin nR → α
  utility_molefrac : Fin nU → α
  fuel_molefrac : Fin nF → α
  reactant_MW : α
  utility_MW : α
  fuel_MW : α
  utility1_rho : Grid r c α
  reactant2_rho : Grid r c α
  fuel3_rho : Grid r c α
  reactant4_rho : Grid r c α
  utility5_rho : Grid r c α
  utility1_cp : Grid r c α
  reactant2_cp : Grid r c α
  fuel3_cp : Grid r c α
  reactant4_cp : Grid r c α
  utility5_cp : Grid r c α
  utility1_mu : Grid r c α
  reactant2_mu : Grid r c α
  fuel3_mu : Grid r c α
  reactant4_mu : Grid r c α
  utility5_mu : Grid r c α
  utility1_k : Grid r c α
  reactant2_k : Grid r c α
  fuel3_k : Grid r c α
  reactant4_k : Grid r c α
  utility5_k : Grid r c α
  utility1_u : Grid r c α
  reactant2_u : Grid r c α
  fuel3_u : Grid r c α
  reactant4_u : Grid r c α
  utility5_u : Grid r c α
  utility1_Pr : Grid r c α
  reactant2_Pr : Grid r c α
  fuel3_Pr : Grid r c α
  reactant4_Pr : Grid r c α
  utility5_Pr : Grid r c α
  utility1_Re : Grid r c α
  reactant2_Re : Grid r c α
  fuel3_Re : Grid r c α
  reactant4_Re : Grid r c α
  utility5_Re : Grid r c α
  utility1_f : Grid r c α
  reactant2_f : Grid r c α
  fuel3_f : Grid r c α
  reactant4_f : Grid r c α
  utility5_f : Grid r c α
  utility1_Nu : Grid r c α
  reactant2_Nu : Grid r c α
  fuel3_Nu : Grid r c α
  reactant4_Nu : Grid r c α
  utility5_Nu : Grid r c α
  utility1_h : Grid r c α
  reactant2_h : Grid r c α
  fuel3_h : Grid r c α
  reactant4_h : Grid r c α
  utility5_h : Grid r c α
  Q_utility1_fluid : Grid r c α
  Q_reactant2_fluid : Grid r c α
  Q_fuel3_fluid : Grid r c α
  Q_reactant4_fluid : Grid r c α
  Q_utility5_fluid : Grid r c α
  Q_utilityPlate1 : Grid r c α
  Q_reactantPlate2 : Grid r c α
  Q_fuelPlate3 : Grid r c α
  Q_reactantPlate4 : Grid r c α
  Q_utilityPlate5 : Grid r c α

/-- The full simulation object: read-only construction data plus the
per-call scratch attributes. -/
structure State (r c nR nU nF : ℕ) (α : Type) where
  persist : Persist r c nR nU nF α
  cache : Cache r c nR nU nF α

/-- Tag for the five fluid passes, replacing the string selectors
`'utility1'`, `'reactant2'`, `'fuel3'`, `'reactant4'`, `'utility5'`. -/
inductive Fluid where
  | utility1
  | reactant2
  | fuel3
  | reactant4
  | utility5

variable {r c nR nU nF : ℕ} {α : Type} [LinearOrderedField α]

/-- Indicator value of a comparison, embedding numpy boolean masks
(`np.less_equal`, `np.greater`, `np.equal`) that the source multiplies into
arithmetic. -/
def mask (P : Prop) [Decidable P] : α := if P then 1 else 0

/-- Mean of a grid (`np.ndarray.mean()`): sum of all entries over the cell
count. -/
def gridMean (P : Grid r c α) : α := (∑ i, ∑ j, P i j) / ((r * c : ℕ) : α)

/-- Index of the cell one step back with wrap-around, so that
`g (rollDec i) j` is entry `(i, j)` of `np.roll(g, 1, 0)`. -/
def rollDec {n : ℕ} (i : Fin n) : Fin n :=
  ⟨((i : ℕ) + (n - 1)) % n, Nat.mod_lt _ i.pos⟩

/-- Index of the cell one step forward with wrap-around, so that
`g (rollInc i) j` is entry `(i, j)` of `np.roll(g, -1, 0)`. -/
def rollInc {n : ℕ} (i : Fin n) : Fin n :=
  ⟨((i : ℕ) + 1) % n, Nat.mod_lt _ i.pos⟩

/-- Moles per unit mass of species `k` of a composition: mass fraction over
molecular weight (`nmol[i] = comp[species[i]] / MW_list[species[i]]`). -/
def nmol {n : ℕ} (comp : Fin n → Species α × α) (k : Fin n) : α :=
  (comp k).2 / (comp k).1.MW

/-- One mole-weighted mixture heat-capacity polynomial coefficient grid from
`mol_frac_and_cp` (source lines 297-357): the low-range coefficient is gated
by `np.less_equal(Tlow, 1000)` and the high-range one by
`np.greater(Thigh, 1000)`, the mole-weighted sum being divided by the total
moles at the end.  The two gate temperatures are passed separately because
source line 317 gates `cp_a1_utility5` on `utility1_T` instead of
`utility5_T`. -/
def cpCoeffGrid {n : ℕ} (comp : Fin n → Species α × α)
    (low high : Species α → α) (Tlow Thigh : Grid r c α) : Grid r c α :=
  fun i j =>
    (∑ k, nmol comp k *
      (low (comp k).1 * mask (Tlow i j ≤ 1000) +
       high (comp k).1 * mask ((1000 : α) < Thigh i j))) /
    ∑ k, nmol comp k

/-- Mole fractions of a composition: `np.divide(nmol, nmol.sum())` (source
lines 359-361). -/
def molefracOf {n : ℕ} (comp : Fin n → Species α × α) : Fin n → α :=
  fun k => nmol comp k / ∑ m, nmol comp m

/-- Mean molecular weight of a composition: mole-fraction-weighted sum of the
species molecular weights (source lines 371-376). -/
def mixMW {n : ℕ} (comp : Fin n → Species α × α) : α :=
  ∑ k, molefracOf comp k * (comp k).1.MW

/-- Embedding of `mol_frac_and_cp` (source lines 259-376): recompute all
mixture heat-capacity coefficient grids, the mole fractions and the mean
molecular weights of the three streams from their compositions and the
current per-pass temperature grids.  Note the verbatim quirk on
`cp_a1_utility5`: the high-range gate reads `utility1_T` (source line
317). -/
def mol_frac_and_cp (s : State r c nR nU nF α) : State r c nR nU nF α :=
  let p := s.persist
  let ch := s.cache
  { s with cache := { ch with
      cp_a1_reactant2 := cpCoeffGrid p.reactant.comp (fun sp => sp.a1low) (fun sp => sp.a1high) ch.reactant2_T ch.reactant2_T
      cp_a2_reactant2 := cpCoeffGrid p.reactant.comp (fun sp => sp.a2low) (fun sp => sp.a2high) ch.reactant2_T ch.reactant2_T
      cp_a3_reactant2 := cpCoeffGrid p.reactant.comp (fun sp => sp.a3low) (fun sp => sp.a3high) ch.reactant2_T ch.reactant2_T
      cp_a4_reactant2 := cpCoeffGrid p.reactant.comp (fun sp => sp.a4low) (fun sp => sp.a4high) ch.reactant2_T ch.reactant2_T
      cp_a5_reactant2 := cpCoeffGrid p.reactant.comp (fun sp => sp.a5low) (fun sp => sp.a5high) ch.reactant2_T ch.reactant2_T
      cp_a1_reactant4 := cpCoeffGrid p.reactant.comp (fun sp => sp.a1low) (fun sp => sp.a1high) ch.reactant4_T ch.reactant4_T
      cp_a2_reactant4 := cpCoeffGrid p.reactant.comp (fun sp => sp.a2low) (fun sp => sp.a2high) ch.reactant4_T ch.reactant4_T
      cp_a3_reactant4 := cpCoeffGrid p.reactant.comp (fun sp => sp.a3low) (fun sp => sp.a3high) ch.reactant4_T ch.reactant4_T
      cp_a4_reactant4 := cpCoeffGrid p.reactant.comp (fun sp => sp.a4low) (fun sp => sp.a4high) ch.reactant4_T ch.reactant4_T
      cp_a5_reactant4 := cpCoeffGrid p.reactant.comp (fun sp => sp.a5low) (fun sp => sp.a5high) ch.reactant4_T ch.reactant4_T
      cp_a1_utility1 := cpCoeffGrid p.utility.comp (fun sp => sp.a1low) (fun sp => sp.a1high) ch.utility1_T ch.utility1_T
      cp_a2_utility1 := cpCoeffGrid p.utility.comp (fun sp => sp.a2low) (fun sp => sp.a2high) ch.utility1_T ch.utility1_T
      cp_a3_utility1 := cpCoeffGrid p.utility.comp (fun sp => sp.a3low) (fun sp => sp.a3high) ch.utility1_T ch.utility1_T
      cp_a4_utility1 := cpCoeffGrid p.utility.comp (fun sp => sp.a4low) (fun sp => sp.a4high) ch.utility1_T ch.utility1_T
      cp_a5_utility1 := cpCoeffGrid p.utility.comp (fun sp => sp.a5low) (fun sp => sp.a5high) ch.utility1_T ch.utility1_T
      cp_a1_utility5 := cpCoeffGrid p.utility.comp (fun sp => sp.a1low) (fun sp => sp.a1high) ch.utility5_T ch.utility1_T
      cp_a2_utility5 := cpCoeffGrid p.utility.comp (fun sp => sp.a2low) (fun sp => sp.a2high) ch.utility5_T ch.utility5_T
      cp_a3_utility5 := cpCoeffGrid p.utility.comp (fun sp => sp.a3low) (fun sp => sp.a3high) ch.utility5_T ch.utility5_T
      cp_a4_utility5 := cpCoeffGrid p.utility.comp (fun sp => sp.a4low) (fun sp => sp.a4high) ch.utility5_T ch.utility5_T
      cp_a5_utility5 := cpCoeffGrid p.utility.comp (fun sp => sp.a5low) (fun sp => sp.a5high) ch.utility5_T ch.utility5_T
      cp_a1_fuel3 := cpCoeffGrid p.fuel.comp (fun sp => sp.a1low) (fun sp => sp.a1high) ch.fuel3_T ch.fuel3_T
      cp_a2_fuel3 := cpCoeffGrid p.fuel.comp (fun sp => sp.a2low) (fun sp => sp.a2high) ch.fuel3_T ch.fuel3_T
      cp_a3_fuel3 := cpCoeffGrid p.fuel.comp (fun sp => sp.a3low) (fun sp => sp.a3high) ch.fuel3_T ch.fuel3_T
      cp_a4_fuel3 := cpCoeffGrid p.fuel.comp (fun sp => sp.a4low) (fun sp => sp.a4high) ch.fuel3_T ch.fuel3_T
      cp_a5_fuel3 := cpCoeffGrid p.fuel.comp (fun sp => sp.a5low) (fun sp => sp.a5high) ch.fuel3_T ch.fuel3_T
      reactant_molefrac := molefracOf p.reactant.comp
      utility_molefrac := molefracOf p.utility.comp
      fuel_molefrac := molefracOf p.fuel.comp
      reactant_MW := mixMW p.reactant.comp
      utility_MW := mixMW p.utility.comp
      fuel_MW := mixMW p.fuel.comp } }

/-- Polynomial heat-capacity evaluation
`a1 + a2·T + a3·T² + a4·T³ + a5·T⁴` shared by the five `properties`
branches (source lines 528, 537, 546, 554, 563). -/
def cp_cell (a1 a2 a3 a4 a5 T : α) : α :=
  a1 + a2 * T + a3 * T ^ 2 + a4 * T ^ 3 + a5 * T ^ 4

/-- Ideal-gas density `P·MW/(R·T)/1000` used per pass in `properties`
(source lines 527, 536, 545, 553, 562). -/
def rho_cell (P MW GC T : α) : α := P * MW / GC / T / 1000

/-- Embedding of `advective_transfer` (source lines 764-816): the upstream
temperature is the grid rolled one cell along the flow direction
(`np.roll(temps, 1, roll_dir)`, row-wise for the utility passes and
column-wise for the reactant and fuel passes), the result is upstream minus
local, and the inlet row/column is overwritten with the stream inlet
temperature minus the local temperature. -/
def advective_transfer (s : State r c nR nU nF α) (fluid : Fluid) :
    Grid r c α :=
  match fluid with
  | .reactant2 => fun i j =>
      if (j : ℕ) = 0 then s.persist.reactant.Tin - s.cache.reactant2_T i j
      else s.cache.reactant2_T i (rollDec j) - s.cache.reactant2_T i j
  | .reactant4 => fun i j =>
      if (j : ℕ) = 0 then s.persist.reactant.Tin - s.cache.reactant4_T i j
      else s.cache.reactant4_T i (rollDec j) - s.cache.reactant4_T i j
  | .fuel3 => fun i j =>
      if (j : ℕ) = 0 then s.persist.fuel.Tin - s.cache.fuel3_T i j
      else s.cache.fuel3_T i (rollDec j) - s.cache.fuel3_T i j
  | .utility1 => fun i j =>
      if (i : ℕ) = 0 then s.persist.utility.Tin - s.cache.utility1_T i j
      else s.cache.utility1_T (rollDec i) j - s.cache.utility1_T i j
  | .utility5 => fun i j =>
      if (i : ℕ) = 0 then s.persist.utility.Tin - s.cache.utility5_T i j
      else s.cache.utility5_T (rollDec i) j - s.cache.utility5_T i j

/-- Embedding of `intraplate_cond` (source lines 714-762): circular-shift
second differences in both grid directions whose edge rows/columns are then
overwritten with the insulated (mirror) one-sided differences, scaled by the
solid thermal diffusivity.  The first `if` branch corresponds to the last
in-place edge assignment in the source, which wins when a grid direction has
a single cell; the `2 ≤ c` / `2 ≤ r` guards make the function total where
numpy indexing `temps[:, 1]` would fail. -/
def intraplate_cond (s : State r c nR nU nF α) (plate : Fluid) :
    Grid r c α :=
  let temps :=
    match plate with
    | .reactant2 => s.cache.reactantPlate2_T
    | .utility1 => s.cache.utilityPlate1_T
    | .fuel3 => s.cache.fuelPlate3_T
    | .reactant4 => s.cache.reactantPlate4_T
    | .utility5 => s.cache.utilityPlate5_T
  let p := s.persist
  fun i j =>
    let temp_x_dir : α :=
      if hl : (j : ℕ) = c - 1 then
        if h2 : 2 ≤ c then
          2 * (temps i ⟨c - 2, by omega⟩ - temps i ⟨c - 1, by omega⟩) / p.deltax ^ 2
        else 0
      else if hf : (j : ℕ) = 0 then
        have h2 : 1 < c := by have := j.isLt; omega
        2 * (temps i ⟨1, h2⟩ - temps i ⟨0, by omega⟩) / p.deltax ^ 2
      else
        (temps i (rollInc j) - 2 * temps i j + temps i (rollDec j)) / p.deltax ^ 2
    let temp_z_dir : α :=
      if hl : (i : ℕ) = r - 1 then
        if h2 : 2 ≤ r then
          2 * (temps ⟨r - 2, by omega⟩ j - temps ⟨r - 1, by omega⟩ j) / p.deltaz ^ 2
        else 0
      else if hf : (i : ℕ) = 0 then
        have h2 : 1 < r := by have := i.isLt; omega
        2 * (temps ⟨1, h2⟩ j - temps ⟨0, by omega⟩ j) / p.deltaz ^ 2
      else
        (temps (rollInc i) j - 2 * temps i j + temps (rollDec i) j) / p.deltaz ^ 2
    (temp_x_dir + temp_z_dir) * (p.metalk / (p.metalrho * p.metalcp))

/-- Source line 955: net convective heat rate into the utility-pass-1 fluid,
exchanging with utility plate 5 over `hx_area_1` and with utility plate 1
over `hx_area_3`. -/
def Q_utility1_fluid (h : Grid r c α) (A1 A3 : α)
    (utilityPlate5_T utilityPlate1_T utility1_T : Grid r c α) : Grid r c α :=
  fun i j => h i j * (A1 * (utilityPlate5_T i j - utility1_T i j) +
    A3 * (utilityPlate1_T i j - utility1_T i j))

/-- Source line 956: net convective heat rate into the reactant-pass-2 fluid,
exchanging with utility plate 1 over `hx_area_4` and with reactant plate 2
over `hx_area_6`. -/
def Q_reactant2_fluid (h : Grid r c α) (A4 A6 : α)
    (utilityPlate1_T reactantPlate2_T reactant2_T : Grid r c α) : Grid r c α :=
  fun i j => h i j * (A4 * (utilityPlate1_T i j - reactant2_T i j) +
    A6 * (reactantPlate2_T i j - reactant2_T i j))

/-- Source line 957: net convective heat rate into the fuel-pass-3 fluid. -/
def Q_fuel3_fluid (h : Grid r c α) (A4 A6 : α)
    (reactantPlate2_T fuelPlate3_T fuel3_T : Grid r c α) : Grid r c α :=
  fun i j => h i j * (A4 * (reactantPlate2_T i j - fuel3_T i j) +
    A6 * (fuelPlate3_T i j - fuel3_T i j))

/-- Source line 958: net convective heat rate into the reactant-pass-4
fluid. -/
def Q_reactant4_fluid (h : Grid r c α) (A4 A6 : α)
    (fuelPlate3_T reactantPlate4_T reactant4_T : Grid r c α) : Grid r c α :=
  fun i j => h i j * (A4 * (fuelPlate3_T i j - reactant4_T i j) +
    A6 * (reactantPlate4_T i j - reactant4_T i j))

/-- Source line 959: net convective heat rate into the utility-pass-5 fluid,
exchanging with reactant plate 4 over `hx_area_1` and with utility plate 5
over `hx_area_5` (verbatim; note the area comments at source lines 128-133
assign `hx_area_3` to the utility-fluid-5/utility-plate-5 contact). -/
def Q_utility5_fluid (h : Grid r c α) (A1 A5 : α)
    (reactantPlate4_T utilityPlate5_T utility5_T : Grid r c α) : Grid r c α :=
  fun i j => h i j * (A1 * (reactantPlate4_T i j - utility5_T i j) +
    A5 * (utilityPlate5_T i j - utility5_T i j))

/-- Source line 961: convective heat rate into utility plate 1 from its two
adjacent fluids. -/
def Q_utilityPlate1_conv (utility1_h reactant2_h : Grid r c α) (A3 A4 : α)
    (utility1_T reactant2_T utilityPlate1_T : Grid r c α) : Grid r c α :=
  fun i j => utility1_h i j * A3 * (utility1_T i j - utilityPlate1_T i j) +
    reactant2_h i j * A4 * (reactant2_T i j - utilityPlate1_T i j)

/-- Source line 962: convective heat rate into reactant plate 2. -/
def Q_reactantPlate2_conv (reactant2_h fuel3_h : Grid r c α) (A6 A4 : α)
    (reactant2_T fuel3_T reactantPlate2_T : Grid r c α) : Grid r c α :=
  fun i j => reactant2_h i j * A6 * (reactant2_T i j - reactantPlate2_T i j) +
    fuel3_h i j * A4 * (fuel3_T i j - reactantPlate2_T i j)

/-- Source line 963: convective heat rate into fuel plate 3. -/
def Q_fuelPlate3_conv (fuel3_h reactant4_h : Grid r c α) (A6 A4 : α)
    (fuel3_T reactant4_T fuelPlate3_T : Grid r c α) : Grid r c α :=
  fun i j => fuel3_h i j * A6 * (fuel3_T i j - fuelPlate3_T i j) +
    reactant4_h i j * A4 * (reactant4_T i j - fuelPlate3_T i j)

/-- Source line 964: convective heat rate into reactant plate 4. -/
def Q_reactantPlate4_conv (reactant4_h utility5_h : Grid r c α) (A6 A1 : α)
    (reactant4_T utility5_T reactantPlate4_T : Grid r c α) : Grid r c α :=
  fun i j => reactant4_h i j * A6 * (reactant4_T i j - reactantPlate4_T i j) +
    utility5_h i j * A1 * (utility5_T i j - reactantPlate4_T i j)

/-- Source line 965: convective heat rate into utility plate 5; both fluid
contacts use `hx_area_1` (verbatim), so the utility-fluid-5 side of this pair
uses a different area than source line 959 does. -/
def Q_utilityPlate5_conv (utility5_h utility1_h : Grid r c α) (A1 : α)
    (utility5_T utility1_T utilityPlate5_T : Grid r c α) : Grid r c α :=
  fun i j => utility5_h i j * A1 * (utility5_T i j - utilityPlate5_T i j) +
    utility1_h i j * A1 * (utility1_T i j - utilityPlate5_T i j)

/-- Source line 968: interplate conduction added to utility plate 1, with
utility plate 5 over `hx_area_2` and reactant plate 2 over `hx_area_5`. -/
def Q_utilityPlate1_cond (metalk A2 A5 : α)
    (utilityPlate5_T reactantPlate2_T utilityPlate1_T : Grid r c α) :
    Grid r c α :=
  fun i j => metalk * (A2 * (utilityPlate5_T i j - utilityPlate1_T i j) +
    A5 * (reactantPlate2_T i j - utilityPlate1_T i j))

/-- Source line 969: interplate conduction added to reactant plate 2. -/
def Q_reactantPlate2_cond (metalk A5 : α)
    (fuelPlate3_T utilityPlate1_T reactantPlate2_T : Grid r c α) :
    Grid r c α :=
  fun i j => metalk * A5 * (fuelPlate3_T i j + utilityPlate1_T i j -
    2 * reactantPlate2_T i j)

/-- Source line 970: interplate conduction added to fuel plate 3. -/
def Q_fuelPlate3_cond (metalk A5 : α)
    (reactantPlate2_T reactantPlate4_T fuelPlate3_T : Grid r c α) :
    Grid r c α :=
  fun i j => metalk * A5 * (reactantPlate2_T i j + reactantPlate4_T i j -
    2 * fuelPlate3_T i j)

/-- Source line 971: interplate conduction added to reactant plate 4, with
fuel plate 3 over `hx_area_5` and utility plate 5 over `hx_area_2`. -/
def Q_reactantPlate4_cond (metalk A5 A2 : α)
    (fuelPlate3_T utilityPlate5_T reactantPlate4_T : Grid r c α) :
    Grid r c α :=
  fun i j => metalk * (A5 * (fuelPlate3_T i j - reactantPlate4_T i j) +
    A2 * (utilityPlate5_T i j - reactantPlate4_T i j))

/-- Source line 972: interplate conduction added to utility plate 5; both its
neighbour contacts use `hx_area_5` (verbatim), whereas the same pairs on the
neighbours' side (lines 968 and 971) use `hx_area_2`. -/
def Q_utilityPlate5_cond (metalk A5 : α)
    (reactantPlate4_T utilityPlate1_T utilityPlate5_T : Grid r c α) :
    Grid r c α :=
  fun i j => metalk * (A5 * (reactantPlate4_T i j + utilityPlate1_T i j -
    2 * utilityPlate5_T i j))

/-- The heat rate the utility-pass-5 fluid receives from reactant plate 4;
first summand of `Q_utility5_fluid`. -/
def Q_u5f_pair_rP4 (h : Grid r c α) (A1 : α)
    (reactantPlate4_T utility5_T : Grid r c α) : Grid r c α :=
  fun i j => h i j * (A1 * (reactantPlate4_T i j - utility5_T i j))

/-- The heat rate the utility-pass-5 fluid receives from utility plate 5;
second summand of `Q_utility5_fluid`, carrying area `hx_area_5`. -/
def Q_u5f_pair_uP5 (h : Grid r c α) (A5 : α)
    (utilityPlate5_T utility5_T : Grid r c α) : Grid r c α :=
  fun i j => h i j * (A5 * (utilityPlate5_T i j - utility5_T i j))

/-- The heat rate utility plate 5 receives from the utility-pass-5 fluid;
first summand of `Q_utilityPlate5_conv`, carrying area `hx_area_1`. -/
def Q_uP5_pair_u5 (utility5_h : Grid r c α) (A1 : α)
    (utility5_T utilityPlate5_T : Grid r c α) : Grid r c α :=
  fun i j => utility5_h i j * A1 * (utility5_T i j - utilityPlate5_T i j)

/-- The heat rate reactant plate 4 receives from the utility-pass-5 fluid;
second summand of `Q_reactantPlate4_conv`. -/
def Q_rP4_pair_u5 (utility5_h : Grid r c α) (A1 : α)
    (utility5_T reactantPlate4_T : Grid r c α) : Grid r c α :=
  fun i j => utility5_h i j * A1 * (utility5_T i j - reactantPlate4_T i j)

/-- The conduction heat rate utility plate 1 receives from utility plate 5;
first summand of `Q_utilityPlate1_cond`, carrying area `hx_area_2`. -/
def Q_uP1_pair_uP5 (metalk A2 : α)
    (utilityPlate5_T utilityPlate1_T : Grid r c α) : Grid r c α :=
  fun i j => metalk * (A2 * (utilityPlate5_T i j - utilityPlate1_T i j))

/-- The conduction heat rate utility plate 5 receives from utility plate 1;
part of `Q_utilityPlate5_cond`, carrying area `hx_area_5`. -/
def Q_uP5_pair_uP1 (metalk A5 : α)
    (utilityPlate1_T utilityPlate5_T : Grid r c α) : Grid r c α :=
  fun i j => metalk * (A5 * (utilityPlate1_T i j - utilityPlate5_T i j))

/-- Per-cell Bernoulli head loss
`2·f·Δ/d_h·u²·ρ` (source lines 834-838). -/
def deltaP_grid (f : Grid r c α) (Δ dh : α) (u rho : Grid r c α) :
    Grid r c α :=
  fun i j => 2 * f i j * Δ / dh * (u i j) ^ 2 * rho i j

/-- The cold-start marching loop of `update_pressures` along one flow line:
position `0` is the inlet value minus the local loss (source lines 843-847)
and every later position subtracts its own loss from the previous position
(source lines 849-856). -/
def marchFrom (Pin : α) (dP : ℕ → α) : ℕ → α
  | 0 => Pin - dP 0
  | k + 1 => marchFrom Pin dP k - dP (k + 1)

/-- Embedding of `update_pressures` (source lines 818-871).  The per-pass
losses are computed with `deltaP_grid`; the mode test compares the mean of the
stored reactant-pass-2 field with its corner entry (source line 842).  Cold
mode marches each pass from its inlet edge with `marchFrom`.  Warm mode
shifts each stored field one cell along the flow axis minus the loss and then
overwrites an edge verbatim from the source: for the utility passes the first
*column* is assigned `utility[3] - deltaP[0, :]` (lines 861 and 869), for the
reactant passes the first *row* is assigned `reactant[3] - deltaP[:, 0]`
(lines 863 and 867), and for the fuel pass the first row is assigned
`self.reactant[3] - deltaP_fuel3[:, 0]` (line 865).  The transposed-slice
assignments only type-check in numpy for square grids; the `dite` fallbacks
keep the embedding total and are never taken when `r = c`. -/
def update_pressures [NeZero r] [NeZero c] (s : State r c nR nU nF α) :
    State r c nR nU nF α :=
  let p := s.persist
  let dPu1 := deltaP_grid s.cache.utility1_f p.deltaz p.utility_dh
    s.cache.utility1_u s.cache.utility1_rho
  let dPr2 := deltaP_grid s.cache.reactant2_f p.deltax p.reactant_dh
    s.cache.reactant2_u s.cache.reactant2_rho
  let dPf3 := deltaP_grid s.cache.fuel3_f p.deltax p.fuel_dh
    s.cache.fuel3_u s.cache.fuel3_rho
  let dPr4 := deltaP_grid s.cache.reactant4_f p.deltax p.reactant_dh
    s.cache.reactant4_u s.cache.reactant4_rho
  let dPu5 := deltaP_grid s.cache.utility5_f p.deltaz p.utility_dh
    s.cache.utility5_u s.cache.utility5_rho
  if gridMean p.reactant2_P = p.reactant2_P 0 0 then
    { s with persist := { p with
        utility1_P := fun i j =>
          marchFrom p.utility.Pin (fun k => if h : k < r then dPu1 ⟨k, h⟩ j else 0) (i : ℕ)
        reactant2_P := fun i j =>
          marchFrom p.reactant.Pin (fun k => if h : k < c then dPr2 i ⟨k, h⟩ else 0) (j : ℕ)
        fuel3_P := fun i j =>
          marchFrom p.fuel.Pin (fun k => if h : k < c then dPf3 i ⟨k, h⟩ else 0) (j : ℕ)
        reactant4_P := fun i j =>
          marchFrom p.reactant.Pin (fun k => if h : k < c then dPr4 i ⟨k, h⟩ else 0) (j : ℕ)
        utility5_P := fun i j =>
          marchFrom p.utility.Pin (fun k => if h : k < r then dPu5 ⟨k, h⟩ j else 0) (i : ℕ) } }
  else
    { s with persist := { p with
        utility1_P := fun i j =>
          if (j : ℕ) = 0 then
            if h : (i : ℕ) < c then p.utility.Pin - dPu1 0 ⟨(i : ℕ), h⟩
            else p.utility1_P (rollDec i) j - dPu1 i j
          else p.utility1_P (rollDec i) j - dPu1 i j
        reactant2_P := fun i j =>
          if (i : ℕ) = 0 then
            if h : (j : ℕ) < r then p.reactant.Pin - dPr2 ⟨(j : ℕ), h⟩ 0
            else p.reactant2_P i (rollDec j) - dPr2 i j
          else p.reactant2_P i (rollDec j) - dPr2 i j
        fuel3_P := fun i j =>
          if (i : ℕ) = 0 then
            if h : (j : ℕ) < r then p.reactant.Pin - dPf3 ⟨(j : ℕ), h⟩ 0
            else p.fuel3_P i (rollDec j) - dPf3 i j
          else p.fuel3_P i (rollDec j) - dPf3 i j
        reactant4_P := fun i j =>
          if (i : ℕ) = 0 then
            if h : (j : ℕ) < r then p.reactant.Pin - dPr4 ⟨(j : ℕ), h⟩ 0
            else p.reactant4_P i (rollDec j) - dPr4 i j
          else p.reactant4_P i (rollDec j) - dPr4 i j
        utility5_P := fun i j =>
          if (j : ℕ) = 0 then
            if h : (i : ℕ) < c then p.utility.Pin - dPu5 0 ⟨(i : ℕ), h⟩
            else p.utility5_P (rollDec i) j - dPu5 i j
          else p.utility5_P (rollDec i) j - dPu5 i j } }

/-- Reduced temperature `T* = T/(ε/κ)` (source line 584). -/
noncomputable def TstarOf (sp : Species ℝ) (T : ℝ) : ℝ := T / sp.epsOverKappa

/-- Viscosity collision integral Ω (source line 585). -/
noncomputable def omega_mu (sp : Species ℝ) (T : ℝ) : ℝ :=
  1.16145 / (TstarOf sp T) ^ (0.14874 : ℝ) +
  0.52487 / Real.exp (0.77320 * TstarOf sp T) +
  2.16178 / Real.exp (2.43787 * TstarOf sp T)

/-- Empirical cubic water-vapour viscosity correction factor (source
line 591). -/
noncomputable def viscCF (T : ℝ) : ℝ :=
  (-7.19443 * 10 ^ (-12 : ℤ)) * T ^ 3 + (1.27546 * 10 ^ (-8 : ℤ)) * T ^ 2 +
  (8.69573 * 10 ^ (-5 : ℤ)) * T + 0.768920462

/-- Chapman-Enskog pure-species viscosity (source line 586), multiplied by
the water correction when the species key is `H2O` (source lines 590-592). -/
noncomputable def viscosity_sp (sp : Species ℝ) (T : ℝ) : ℝ :=
  let base := 2.6693 * 10 ^ (-5 : ℤ) * Real.sqrt (sp.MW * T) /
    (sp.sigma ^ 2 * omega_mu sp T) * 98.0665 / 1000
  if sp.key = "H2O" then base * viscCF T else base

/-- Diffusion collision integral Ω₁₁ (source line 587). -/
noncomputable def omega11_sp (sp : Species ℝ) (T : ℝ) : ℝ :=
  1.06036 / (TstarOf sp T) ^ (0.15610 : ℝ) +
  0.19300 / Real.exp (0.47635 * TstarOf sp T) +
  1.03587 / Real.exp (1.52996 * TstarOf sp T) +
  1.76474 / Real.exp (3.89411 * TstarOf sp T)

/-- Per-species heat capacity from the two-range polynomial fit, converted to
a mass basis (source lines 595-600). -/
noncomputable def cpi_sp (sp : Species ℝ) (T GC : ℝ) : ℝ :=
  ((sp.a1low * mask (T ≤ 1000) + sp.a1high * mask ((1000 : ℝ) < T)) +
   (sp.a2low * mask (T ≤ 1000) + sp.a2high * mask ((1000 : ℝ) < T)) * T +
   (sp.a3low * mask (T ≤ 1000) + sp.a3high * mask ((1000 : ℝ) < T)) * T ^ 2 +
   (sp.a4low * mask (T ≤ 1000) + sp.a4high * mask ((1000 : ℝ) < T)) * T ^ 3 +
   (sp.a5low * mask (T ≤ 1000) + sp.a5high * mask ((1000 : ℝ) < T)) * T ^ 4) *
  GC / sp.MW * 1000

/-- Constant-volume heat capacity `cv = cp − R/MW` (source line 601). -/
noncomputable def cvi_sp (sp : Species ℝ) (T GC : ℝ) : ℝ :=
  cpi_sp sp T GC - GC / sp.MW * 1000

/-- Rotational-relaxation temperature function `F(T)` (source lines
603-605). -/
noncomputable def FT_sp (sp : Species ℝ) (T : ℝ) : ℝ :=
  1 + Real.pi ^ ((3 : ℝ) / 2) / 2 * (sp.epsOverKappa * 1 / T) ^ ((1 : ℝ) / 2) +
  (Real.pi ^ 2 / 4 + 2) * (sp.epsOverKappa / T) +
  Real.pi ^ ((3 : ℝ) / 2) * (sp.epsOverKappa / T) ^ ((3 : ℝ) / 2)

/-- The same function evaluated at the 298 K reference (source lines
607-609). -/
noncomputable def F298_sp (sp : Species ℝ) : ℝ :=
  1 + Real.pi ^ ((3 : ℝ) / 2) / 2 * (sp.epsOverKappa * 1 / 298) ^ ((1 : ℝ) / 2) +
  (Real.pi ^ 2 / 4 + 2) * (sp.epsOverKappa / 298) +
  Real.pi ^ ((3 : ℝ) / 2) * (sp.epsOverKappa / 298) ^ ((3 : ℝ) / 2)

/-- Temperature-corrected rotational relaxation number (source line 611). -/
noncomputable def ZT_sp (sp : Species ℝ) (T : ℝ) : ℝ :=
  sp.rotationalRelaxation * F298_sp sp / FT_sp sp T

/-- Per-species ideal-gas density (source line 613). -/
noncomputable def density_sp (sp : Species ℝ) (T P GC : ℝ) : ℝ :=
  P * sp.MW / GC / T / 1000

/-- Self-diffusion coefficient with the source's ad-hoc `10^32` scaling
(source line 620). -/
noncomputable def Dkk_sp (sp : Species ℝ) (T P : ℝ) : ℝ :=
  3 / 16 * (2 * Real.pi * (1.38064852 * 10 ^ (-23 : ℤ)) ^ 3 * T ^ 3 / sp.MW * 1000) ^ (0.5 : ℝ) /
    (P * Real.pi * sp.sigma ^ 2 * omega11_sp sp T) * 10 ^ (32 : ℕ)

/-- Translational heat capacity `3/2·R/MW` (source line 622). -/
noncomputable def cvitrans_sp (sp : Species ℝ) (GC : ℝ) : ℝ :=
  3 / 2 * GC / sp.MW * 1000

/-- Rotational degrees-of-freedom factor selected by molecule shape (source
lines 623-625), before the mass-basis conversion. -/
noncomputable def cvirot0_sp (sp : Species ℝ) : ℝ :=
  mask (sp.shape = 0) * 0 + mask (sp.shape = 1) * 1 + mask (sp.shape = 2) * (3 / 2)

/-- Vibrational heat capacity selected by molecule shape (source lines
627-629). -/
noncomputable def cvivib_sp (sp : Species ℝ) (T GC : ℝ) : ℝ :=
  mask (sp.shape = 0) * 0 +
  mask (sp.shape = 1) * (cvi_sp sp T GC - 5 / 2 * GC / sp.MW * 1000) +
  mask (sp.shape = 2) * (cvi_sp sp T GC - 3 * GC / sp.MW * 1000)

/-- Warnatz partition quantity `A` (source line 631). -/
noncomputable def A_sp (sp : Species ℝ) (T P GC : ℝ) : ℝ :=
  5 / 2 - density_sp sp T P GC * Dkk_sp sp T P / viscosity_sp sp T

/-- Warnatz partition quantity `B` (source line 632), using the unitless
rotational factor as the source does at that point. -/
noncomputable def B_sp (sp : Species ℝ) (T P GC : ℝ) : ℝ :=
  ZT_sp sp T + 2 / Real.pi *
    (5 / 3 * cvirot0_sp sp + density_sp sp T P GC * Dkk_sp sp T P / viscosity_sp sp T)

/-- Rotational heat capacity on a mass basis (source line 634). -/
noncomputable def cvirot_sp (sp : Species ℝ) (GC : ℝ) : ℝ :=
  cvirot0_sp sp * GC / sp.MW * 1000

/-- Translational weight `f_trans` (source line 636). -/
noncomputable def ftrans_sp (sp : Species ℝ) (T P GC : ℝ) : ℝ :=
  5 / 2 * (1 - 2 / Real.pi * cvirot_sp sp GC / cvitrans_sp sp GC *
    A_sp sp T P GC / B_sp sp T P GC)

/-- Rotational weight `f_rot` (source line 637). -/
noncomputable def frot_sp (sp : Species ℝ) (T P GC : ℝ) : ℝ :=
  density_sp sp T P GC * Dkk_sp sp T P / viscosity_sp sp T *
    (1 + 2 / Real.pi * A_sp sp T P GC / B_sp sp T P GC)

/-- Vibrational weight `f_vib` (source line 638). -/
noncomputable def fvib_sp (sp : Species ℝ) (T P GC : ℝ) : ℝ :=
  density_sp sp T P GC * Dkk_sp sp T P / viscosity_sp sp T

/-- Pure-species thermal conductivity from the Warnatz partition (source
line 641). -/
noncomputable def ki_sp (sp : Species ℝ) (T P GC : ℝ) : ℝ :=
  viscosity_sp sp T * (ftrans_sp sp T P GC * cvitrans_sp sp GC +
    frot_sp sp T P GC * cvirot_sp sp GC + fvib_sp sp T P GC * cvivib_sp sp T GC)

/-- Wilke interaction parameter φ_ij (source line 650). -/
noncomputable def phi_sp (spi spj : Species ℝ) (T : ℝ) : ℝ :=
  (1 + (viscosity_sp spi T / viscosity_sp spj T * (spj.MW / spi.MW) ^ (0.5 : ℝ)) ^ (0.5 : ℝ)) ^ 2 /
    ((8 : ℝ) ^ (0.5 : ℝ) * (1 + spi.MW / spj.MW) ^ (0.5 : ℝ))

/-- Wilke mixture viscosity (source lines 653-658). -/
noncomputable def viscosity_mixture_cell {n : ℕ} (comp : Fin n → Species ℝ × ℝ)
    (x : Fin n → ℝ) (T : ℝ) : ℝ :=
  ∑ i, x i * viscosity_sp (comp i).1 T /
    ∑ j, x j * phi_sp (comp i).1 (comp j).1 T

/-- Mixture conductivity: the source's 50/50 blend of a linear mole-weighted
sum and a harmonic-mean sum (source lines 659-662). -/
noncomputable def k_mixture_cell {n : ℕ} (comp : Fin n → Species ℝ × ℝ)
    (x : Fin n → ℝ) (T P GC : ℝ) : ℝ :=
  (∑ i, 0.5 * (x i * ki_sp (comp i).1 T P GC)) +
    0.5 / ∑ i, x i / ki_sp (comp i).1 T P GC

/-- The kinetic-theory core shared by all five `properties` branches: per-cell
mixture viscosity and thermal conductivity (source lines 568-663). -/
noncomputable def transport_mu_k {r c n : ℕ} (comp : Fin n → Species ℝ × ℝ)
    (x : Fin n → ℝ) (temperatures pressures : Grid r c ℝ) (GC : ℝ) :
    Grid r c ℝ × Grid r c ℝ :=
  (fun i j => viscosity_mixture_cell comp x (temperatures i j),
   fun i j => k_mixture_cell comp x (temperatures i j) (pressures i j) GC)

/-- Embedding of `properties` (source lines 480-663): the per-fluid branch
selects composition, mole fractions, temperatures and pressures, writes the
pass density and heat capacity into the object, and the shared kinetic-theory
core returns the mixture viscosity and conductivity.  Verbatim quirk: the
`fuel3` branch converts its heat capacity to a mass basis dividing by
`self.utility_MW` (source line 564), while its density uses `self.fuel_MW`
(source line 562). -/
noncomputable def properties {r c nR nU nF : ℕ} (s : State r c nR nU nF ℝ)
    (fluid : Fluid) :
    State r c nR nU nF ℝ × (Grid r c ℝ × Grid r c ℝ) :=
  let p := s.persist
  let ch := s.cache
  match fluid with
  | .reactant2 =>
    let temperatures := ch.reactant2_T
    let rho : Grid r c ℝ := fun i j =>
      rho_cell (p.reactant2_P i j) ch.reactant_MW p.GC (temperatures i j)
    let cp : Grid r c ℝ := fun i j =>
      cp_cell (ch.cp_a1_reactant2 i j) (ch.cp_a2_reactant2 i j)
        (ch.cp_a3_reactant2 i j) (ch.cp_a4_reactant2 i j)
        (ch.cp_a5_reactant2 i j) (temperatures i j) * p.GC / ch.reactant_MW * 1000
    ({ s with cache := { ch with reactant2_rho := rho, reactant2_cp := cp } },
      transport_mu_k p.reactant.comp ch.reactant_molefrac temperatures p.reactant2_P p.GC)
  | .reactant4 =>
    let temperatures := ch.reactant4_T
    let rho : Grid r c ℝ := fun i j =>
      rho_cell (p.reactant4_P i j) ch.reactant_MW p.GC (temperatures i j)
    let cp : Grid r c ℝ := fun i j =>
      cp_cell (ch.cp_a1_reactant4 i j) (ch.cp_a2_reactant4 i j)
        (ch.cp_a3_reactant4 i j) (ch.cp_a4_reactant4 i j)
        (ch.cp_a5_reactant4 i j) (temperatures i j) * p.GC / ch.reactant_MW * 1000
    ({ s with cache := { ch with reactant4_rho := rho, reactant4_cp := cp } },
      transport_mu_k p.reactant.comp ch.reactant_molefrac temperatures p.reactant4_P p.GC)
  | .utility1 =>
    let temperatures := ch.utility1_T
    let rho : Grid r c ℝ := fun i j =>
      rho_cell (p.utility1_P i j) ch.utility_MW p.GC (temperatures i j)
    let cp : Grid r c ℝ := fun i j =>
      cp_cell (ch.cp_a1_utility1 i j) (ch.cp_a2_utility1 i j)
        (ch.cp_a3_utility1 i j) (ch.cp_a4_utility1 i j)
        (ch.cp_a5_utility1 i j) (temperatures i j) * p.GC / ch.utility_MW * 1000
    ({ s with cache := { ch with utility1_rho := rho, utility1_cp := cp } },
      transport_mu_k p.utility.comp ch.utility_molefrac temperatures p.utility1_P p.GC)
  | .utility5 =>
    let temperatures := ch.utility5_T
    let rho : Grid r c ℝ := fun i j =>
      rho_cell (p.utility5_P i j) ch.utility_MW p.GC (temperatures i j)
    let cp : Grid r c ℝ := fun i j =>
      cp_cell (ch.cp_a1_utility5 i j) (ch.cp_a2_utility5 i j)
        (ch.cp_a3_utility5 i j) (ch.cp_a4_utility5 i j)
        (ch.cp_a5_utility5 i j) (temperatures i j) * p.GC / ch.utility_MW * 1000
    ({ s with cache := { ch with utility5_rho := rho, utility5_cp := cp } },
      transport_mu_k p.utility.comp ch.utility_molefrac temperatures p.utility5_P p.GC)
  | .fuel3 =>
    let temperatures := ch.fuel3_T
    let rho : Grid r c ℝ := fun i j =>
      rho_cell (p.fuel3_P i j) ch.fuel_MW p.GC (temperatures i j)
    let cp : Grid r c ℝ := fun i j =>
      cp_cell (ch.cp_a1_fuel3 i j) (ch.cp_a2_fuel3 i j)
        (ch.cp_a3_fuel3 i j) (ch.cp_a4_fuel3 i j)
        (ch.cp_a5_fuel3 i j) (temperatures i j) * p.GC / ch.utility_MW * 1000
    ({ s with cache := { ch with fuel3_rho := rho, fuel3_cp := cp } },
      transport_mu_k p.fuel.comp ch.fuel_molefrac temperatures p.fuel3_P p.GC)

/-- Nusselt blending exponent `m = 2.27 + 1.65·Pr^(1/3)` (source line
459). -/
noncomputable def m_cell (Pr : ℝ) : ℝ := 2.27 + 1.65 * Pr ^ ((1 : ℝ) / 3)

/-- Entry-region Prandtl function `f(Pr)` (source line 460). -/
noncomputable def fPr_cell (Pr : ℝ) : ℝ :=
  0.564 / ((1 + (1.664 * Pr ^ ((1 : ℝ) / 6)) ^ ((9 : ℝ) / 2)) ^ ((2 : ℝ) / 9))

/-- Laminar combined entry/fully-developed friction factor (source line
465). -/
noncomputable def laminar_f_cell (Lplus Re aspect : ℝ) : ℝ :=
  ((3.44 * Lplus ^ (-0.5 : ℝ)) ^ 2 +
    (12 / (aspect ^ (0.5 : ℝ) * (1 + aspect) *
      (1 - 192 * aspect * Real.pi ^ (-5 : ℤ) * Real.tanh (Real.pi / (2 * aspect))))) ^ 2) ^ (0.5 : ℝ) / Re

/-- Turbulent logarithmic Darcy friction factor (source line 466). -/
noncomputable def turbulent_f_cell (Re : ℝ) : ℝ :=
  (0.79 * Real.log Re - 1.64) ^ (-2 : ℤ) / 4

/-- Laminar five-term power-mean Nusselt correlation (source line 470). -/
noncomputable def nusselt_laminar_cell (Lplus zstar Re Pr aspect c1 c2 c3 c4 g : ℝ) : ℝ :=
  ((c4 * fPr_cell Pr / zstar ^ (0.5 : ℝ)) ^ m_cell Pr +
    ((c2 * c3 * (laminar_f_cell Lplus Re aspect * Re / zstar) ^ ((1 : ℝ) / 3)) ^ 5 +
      (c1 * (laminar_f_cell Lplus Re aspect * Re /
        (8 * Real.pi ^ (0.5 : ℝ) * aspect ^ g))) ^ 5) ^ (m_cell Pr / 5)) ^ (1 / m_cell Pr)

/-- Gnielinski turbulent Nusselt correlation (source line 471). -/
noncomputable def nusselt_turbulent_cell (Re Pr : ℝ) : ℝ :=
  ((turbulent_f_cell Re / 2) * (Re - 1000) * Pr) /
    (1 + 12.7 * (turbulent_f_cell Re / 2) ^ (0.5 : ℝ) * (Pr ^ ((2 : ℝ) / 3) - 1))

/-- Mask-blended friction factor and Nusselt number shared by all `ff_Nu`
branches (source lines 459-472): the laminar family is gated by
`np.less_equal(reynolds, 2300)` and the turbulent family by
`np.greater(reynolds, 2300)`. -/
noncomputable def ff_Nu_core {r c : ℕ} (Lplus zstar Re Pr : Grid r c ℝ)
    (aspect c1 c2 c3 c4 g : ℝ) : Grid r c ℝ × Grid r c ℝ :=
  (fun i j => mask (Re i j ≤ 2300) * laminar_f_cell (Lplus i j) (Re i j) aspect +
      mask ((2300 : ℝ) < Re i j) * turbulent_f_cell (Re i j),
   fun i j => mask (Re i j ≤ 2300) *
      nusselt_laminar_cell (Lplus i j) (zstar i j) (Re i j) (Pr i j) aspect c1 c2 c3 c4 g +
      mask ((2300 : ℝ) < Re i j) * nusselt_turbulent_cell (Re i j) (Pr i j))

/-- Embedding of `ff_Nu` (source lines 378-478): the per-fluid branch builds
the dimensionless entry length `L+` and thermal entry parameter `z*` (with the
utility passes transposing against the row-direction position array, and
using `self.reactant_dh` in `z*` as the source does at lines 440 and 447),
then evaluates the shared mask-blended correlations. -/
noncomputable def ff_Nu {r c nR nU nF : ℕ} (s : State r c nR nU nF ℝ)
    (fluid : Fluid) : Grid r c ℝ × Grid r c ℝ :=
  let p := s.persist
  match fluid with
  | .reactant2 =>
    let Lplus : Grid r c ℝ := fun i j =>
      s.cache.reactant2_mu i j * p.reactant_L j / (p.reactant.mdot / p.dims 2)
    let reynolds := s.cache.reactant2_Re
    let Pr := s.cache.reactant2_Pr
    let zstar : Grid r c ℝ := fun i j =>
      (p.reactant_L j / p.reactant_dh) / (reynolds i j * Pr i j)
    ff_Nu_core Lplus zstar reynolds Pr p.aspect p.C1 p.C2 p.C3 p.C4 p.gamma
  | .reactant4 =>
    let Lplus : Grid r c ℝ := fun i j =>
      s.cache.reactant4_mu i j * p.reactant_L j / (p.reactant.mdot / p.dims 2)
    let reynolds := s.cache.reactant4_Re
    let Pr := s.cache.reactant4_Pr
    let zstar : Grid r c ℝ := fun i j =>
      (p.reactant_L j / p.reactant_dh) / (reynolds i j * Pr i j)
    ff_Nu_core Lplus zstar reynolds Pr p.aspect p.C1 p.C2 p.C3 p.C4 p.gamma
  | .utility1 =>
    let Lplus : Grid r c ℝ := fun i j =>
      s.cache.utility1_mu i j * p.utility_L i / (p.utility.mdot / p.dims 3)
    let reynolds := s.cache.utility1_Re
    let Pr := s.cache.utility1_Pr
    let zstar : Grid r c ℝ := fun i j =>
      (p.utility_L i / p.reactant_dh) / (reynolds i j * Pr i j)
    ff_Nu_core Lplus zstar reynolds Pr p.aspect p.C1 p.C2 p.C3 p.C4 p.gamma
  | .utility5 =>
    let Lplus : Grid r c ℝ := fun i j =>
      s.cache.utility5_mu i j * p.utility_L i / (p.utility.mdot / p.dims 3)
    let reynolds := s.cache.utility5_Re
    let Pr := s.cache.utility5_Pr
    let zstar : Grid r c ℝ := fun i j =>
      (p.utility_L i / p.reactant_dh) / (reynolds i j * Pr i j)
    ff_Nu_core Lplus zstar reynolds Pr p.aspect p.C1 p.C2 p.C3 p.C4 p.gamma
  | .fuel3 =>
    let Lplus : Grid r c ℝ := fun i j =>
      s.cache.fuel3_mu i j * p.fuel_L j / (p.fuel.mdot / p.dims 2)
    let reynolds := s.cache.fuel3_Re
    let Pr := s.cache.fuel3_Pr
    let zstar : Grid r c ℝ := fun i j =>
      (p.fuel_L j / p.fuel_dh) / (reynolds i j * Pr i j)
    ff_Nu_core Lplus zstar reynolds Pr p.aspect p.C1 p.C2 p.C3 p.C4 p.gamma

/-- Embedding of `transient_solver` (source lines 873-1020), the RHS
assembler: unpack the state vector into the ten temperature attributes,
recompute the mixture coefficients, evaluate `properties` for the five
passes (each call writing that pass's density and heat capacity and
returning its viscosity and conductivity), compute bulk velocities, Prandtl
and Reynolds numbers, friction factors and Nusselt numbers, convective
coefficients, fluid and plate heat rates (convective then interplate
conduction), convert to temperature derivatives, add the advective and
intraplate-conduction contributions, and pack the result.  `t` is required by
the integrator contract but unused.  The returned state carries every
attribute the Python call writes; the persistent block (streams, geometry,
pressure fields) is untouched. -/
noncomputable def transient_solver {r c nR nU nF : ℕ}
    (s : State r c nR nU nF ℝ) (t : ℝ) (T : Fin (10 * (r * c)) → ℝ) :
    State r c nR nU nF ℝ × (Fin (10 * (r * c)) → ℝ) :=
  let p := s.persist
  let tt := unwrap_T T
  let s1 : State r c nR nU nF ℝ := { s with cache := { s.cache with
      utility1_T := tt.utility1_T
      reactant2_T := tt.reactant2_T
      fuel3_T := tt.fuel3_T
      reactant4_T := tt.reactant4_T
      utility5_T := tt.utility5_T
      utilityPlate1_T := tt.utilityPlate1_T
      reactantPlate2_T := tt.reactantPlate2_T
      fuelPlate3_T := tt.fuelPlate3_T
      reactantPlate4_T := tt.reactantPlate4_T
      utilityPlate5_T := tt.utilityPlate5_T } }
  let s2 := mol_frac_and_cp s1
  let pu1 := properties s2 .utility1
  let s3 : State r c nR nU nF ℝ := { pu1.1 with cache := { pu1.1.cache with
      utility1_mu := pu1.2.1, utility1_k := pu1.2.2 } }
  let pr2 := properties s3 .reactant2
  let s4 : State r c nR nU nF ℝ := { pr2.1 with cache := { pr2.1.cache with
      reactant2_mu := pr2.2.1, reactant2_k := pr2.2.2 } }
  let pf3 := properties s4 .fuel3
  let s5 : State r c nR nU nF ℝ := { pf3.1 with cache := { pf3.1.cache with
      fuel3_mu := pf3.2.1, fuel3_k := pf3.2.2 } }
  let pr4 := properties s5 .reactant4
  let s6 : State r c nR nU nF ℝ := { pr4.1 with cache := { pr4.1.cache with
      reactant4_mu := pr4.2.1, reactant4_k := pr4.2.2 } }
  let pu5 := properties s6 .utility5
  let s7 : State r c nR nU nF ℝ := { pu5.1 with cache := { pu5.1.cache with
      utility5_mu := pu5.2.1, utility5_k := pu5.2.2 } }
  let s8 : State r c nR nU nF ℝ := { s7 with cache := { s7.cache with
      utility1_u := fun i j => p.utility.mdot / (s7.cache.utility1_rho i j * p.dims 3 * p.utility_cs)
      reactant2_u := fun i j => p.reactant.mdot / (s7.cache.reactant2_rho i j * p.dims 2 * p.reactant_cs)
      fuel3_u := fun i j => p.fuel.mdot / (s7.cache.fuel3_rho i j * p.dims 2 * p.fuel_cs)
      reactant4_u := fun i j => p.reactant.mdot / (s7.cache.reactant4_rho i j * p.dims 2 * p.reactant_cs)
      utility5_u := fun i j => p.utility.mdot / (s7.cache.utility5_rho i j * p.dims 3 * p.utility_cs) } }
  let s9 : State r c nR nU nF ℝ := { s8 with cache := { s8.cache with
      utility1_Pr := fun i j => s8.cache.utility1_mu i j * s8.cache.utility1_cp i j / s8.cache.utility1_k i j
      reactant2_Pr := fun i j => s8.cache.reactant2_mu i j * s8.cache.reactant2_cp i j / s8.cache.reactant2_k i j
      fuel3_Pr := fun i j => s8.cache.fuel3_mu i j * s8.cache.fuel3_cp i j / s8.cache.fuel3_k i j
      reactant4_Pr := fun i j => s8.cache.reactant4_mu i j * s8.cache.reactant4_cp i j / s8.cache.reactant4_k i j
      utility5_Pr := fun i j => s8.cache.utility5_mu i j * s8.cache.utility5_cp i j / s8.cache.utility5_k i j } }
  let s10 : State r c nR nU nF ℝ := { s9 with cache := { s9.cache with
      utility1_Re := fun i j => s9.cache.utility1_rho i j * s9.cache.utility1_u i j * p.utility_dh / s9.cache.utility1_mu i j
      reactant2_Re := fun i j => s9.cache.reactant2_rho i j * s9.cache.reactant2_u i j * p.reactant_dh / s9.cache.reactant2_mu i j
      fuel3_Re := fun i j => s9.cache.fuel3_rho i j * s9.cache.fuel3_u i j * p.fuel_dh / s9.cache.fuel3_mu i j
      reactant4_Re := fun i j => s9.cache.reactant4_rho i j * s9.cache.reactant4_u i j * p.reactant_dh / s9.cache.reactant4_mu i j
      utility5_Re := fun i j => s9.cache.utility5_rho i j * s9.cache.utility5_u i j * p.utility_dh / s9.cache.utility5_mu i j } }
  let fu1 := ff_Nu s10 .utility1
  let s11 : State r c nR nU nF ℝ := { s10 with cache := { s10.cache with
      utility1_f := fu1.1, utility1_Nu := fu1.2 } }
  let fr2 := ff_Nu s11 .reactant2
  let s12 : State r c nR nU nF ℝ := { s11 with cache := { s11.cache with
      reactant2_f := fr2.1, reactant2_Nu := fr2.2 } }
  let ff3 := ff_Nu s12 .fuel3
  let s13 : State r c nR nU nF ℝ := { s12 with cache := { s12.cache with
      fuel3_f := ff3.1, fuel3_Nu := ff3.2 } }
  let fr4 := ff_Nu s13 .reactant4
  let s14 : State r c nR nU nF ℝ := { s13 with cache := { s13.cache with
      reactant4_f := fr4.1, reactant4_Nu := fr4.2 } }
  let fu5 := ff_Nu s14 .utility5
  let s15 : State r c nR nU nF ℝ := { s14 with cache := { s14.cache with
      utility5_f := fu5.1, utility5_Nu := fu5.2 } }
  let s16 : State r c nR nU nF ℝ := { s15 with cache := { s15.cache with
      utility1_h := fun i j => s15.cache.utility1_Nu i j * s15.cache.utility1_k i j / p.utility_dh
      reactant2_h := fun i j => s15.cache.reactant2_Nu i j * s15.cache.reactant2_k i j / p.reactant_dh
      fuel3_h := fun i j => s15.cache.fuel3_Nu i j * s15.cache.fuel3_k i j / p.fuel_dh
      reactant4_h := fun i j => s15.cache.reactant4_Nu i j * s15.cache.reactant4_k i j / p.reactant_dh
      utility5_h := fun i j => s15.cache.utility5_Nu i j * s15.cache.utility5_k i j / p.utility_dh } }
  let s17 : State r c nR nU nF ℝ := { s16 with cache := { s16.cache with
      Q_utility1_fluid := Q_utility1_fluid s16.cache.utility1_h p.hx_area_1 p.hx_area_3
        s16.cache.utilityPlate5_T s16.cache.utilityPlate1_T s16.cache.utility1_T
      Q_reactant2_fluid := Q_reactant2_fluid s16.cache.reactant2_h p.hx_area_4 p.hx_area_6
        s16.cache.utilityPlate1_T s16.cache.reactantPlate2_T s16.cache.reactant2_T
      Q_fuel3_fluid := Q_fuel3_fluid s16.cache.fuel3_h p.hx_area_4 p.hx_area_6
        s16.cache.reactantPlate2_T s16.cache.fuelPlate3_T s16.cache.fuel3_T
      Q_reactant4_fluid := Q_reactant4_fluid s16.cache.reactant4_h p.hx_area_4 p.hx_area_6
        s16.cache.fuelPlate3_T s16.cache.reactantPlate4_T s16.cache.reactant4_T
      Q_utility5_fluid := Q_utility5_fluid s16.cache.utility5_h p.hx_area_1 p.hx_area_5
        s16.cache.reactantPlate4_T s16.cache.utilityPlate5_T s16.cache.utility5_T
      Q_utilityPlate1 := Q_utilityPlate1_conv s16.cache.utility1_h s16.cache.reactant2_h
        p.hx_area_3 p.hx_area_4 s16.cache.utility1_T s16.cache.reactant2_T s16.cache.utilityPlate1_T
      Q_reactantPlate2 := Q_reactantPlate2_conv s16.cache.reactant2_h s16.cache.fuel3_h
        p.hx_area_6 p.hx_area_4 s16.cache.reactant2_T s16.cache.fuel3_T s16.cache.reactantPlate2_T
      Q_fuelPlate3 := Q_fuelPlate3_conv s16.cache.fuel3_h s16.cache.reactant4_h
        p.hx_area_6 p.hx_area_4 s16.cache.fuel3_T s16.cache.reactant4_T s16.cache.fuelPlate3_T
      Q_reactantPlate4 := Q_reactantPlate4_conv s16.cache.reactant4_h s16.cache.utility5_h
        p.hx_area_6 p.hx_area_1 s16.cache.reactant4_T s16.cache.utility5_T s16.cache.reactantPlate4_T
      Q_utilityPlate5 := Q_utilityPlate5_conv s16.cache.utility5_h s16.cache.utility1_h
        p.hx_area_1 s16.cache.utility5_T s16.cache.utility1_T s16.cache.utilityPlate5_T } }
  let s18 : State r c nR nU nF ℝ := { s17 with cache := { s17.cache with
      Q_utilityPlate1 := fun i j => s17.cache.Q_utilityPlate1 i j +
        Q_utilityPlate1_cond p.metalk p.hx_area_2 p.hx_area_5
          s17.cache.utilityPlate5_T s17.cache.reactantPlate2_T s17.cache.utilityPlate1_T i j
      Q_reactantPlate2 := fun i j => s17.cache.Q_reactantPlate2 i j +
        Q_reactantPlate2_cond p.metalk p.hx_area_5
          s17.cache.fuelPlate3_T s17.cache.utilityPlate1_T s17.cache.reactantPlate2_T i j
      Q_fuelPlate3 := fun i j => s17.cache.Q_fuelPlate3 i j +
        Q_fuelPlate3_cond p.metalk p.hx_area_5
          s17.cache.reactantPlate2_T s17.cache.reactantPlate4_T s17.cache.fuelPlate3_T i j
      Q_reactantPlate4 := fun i j => s17.cache.Q_reactantPlate4 i j +
        Q_reactantPlate4_cond p.metalk p.hx_area_5 p.hx_area_2
          s17.cache.fuelPlate3_T s17.cache.utilityPlate5_T s17.cache.reactantPlate4_T i j
      Q_utilityPlate5 := fun i j => s17.cache.Q_utilityPlate5 i j +
        Q_utilityPlate5_cond p.metalk p.hx_area_5
          s17.cache.reactantPlate4_T s17.cache.utilityPlate1_T s17.cache.utilityPlate5_T i j } }
  let dTdt_utility1 : Grid r c ℝ := fun i j =>
    s18.cache.Q_utility1_fluid i j /
      (s18.cache.utility1_rho i j * p.utility_Vcell * s18.cache.utility1_cp i j) +
    s18.cache.utility1_u i j * advective_transfer s18 .utility1 i j / p.deltaz
  let dTdt_reactant2 : Grid r c ℝ := fun i j =>
    s18.cache.Q_reactant2_fluid i j /
      (s18.cache.reactant2_rho i j * p.reactant_Vcell * s18.cache.reactant2_cp i j) +
    s18.cache.reactant2_u i j * advective_transfer s18 .reactant2 i j / p.deltax
  let dTdt_fuel3 : Grid r c ℝ := fun i j =>
    s18.cache.Q_fuel3_fluid i j /
      (s18.cache.fuel3_rho i j * p.fuel_Vcell * s18.cache.fuel3_cp i j) +
    s18.cache.fuel3_u i j * advective_transfer s18 .fuel3 i j / p.deltax
  let dTdt_reactant4 : Grid r c ℝ := fun i j =>
    s18.cache.Q_reactant4_fluid i j /
      (s18.cache.reactant4_rho i j * p.reactant_Vcell * s18.cache.reactant4_cp i j) +
    s18.cache.reactant4_u i j * advective_transfer s18 .reactant4 i j / p.deltax
  let dTdt_utility5 : Grid r c ℝ := fun i j =>
    s18.cache.Q_utility5_fluid i j /
      (s18.cache.utility5_rho i j * p.utility_Vcell * s18.cache.utility5_cp i j) +
    s18.cache.utility5_u i j * advective_transfer s18 .utility5 i j / p.deltaz
  let dTdt_utilityPlate1 : Grid r c ℝ := fun i j =>
    s18.cache.Q_utilityPlate1 i j / (p.metalrho * p.utilityPlate_Vcell * p.metalcp) +
    intraplate_cond s18 .utility1 i j
  let dTdt_reactantPlate2 : Grid r c ℝ := fun i j =>
    s18.cache.Q_reactantPlate2 i j / (p.metalrho * p.reactantPlate_Vcell * p.metalcp) +
    intraplate_cond s18 .reactant2 i j
  let dTdt_fuelPlate3 : Grid r c ℝ := fun i j =>
    s18.cache.Q_fuelPlate3 i j / (p.metalrho * p.fuelPlate_Vcell * p.metalcp) +
    intraplate_cond s18 .fuel3 i j
  let dTdt_reactantPlate4 : Grid r c ℝ := fun i j =>
    s18.cache.Q_reactantPlate4 i j / (p.metalrho * p.reactantPlate_Vcell * p.metalcp) +
    intraplate_cond s18 .reactant4 i j
  let dTdt_utilityPlate5 : Grid r c ℝ := fun i j =>
    s18.cache.Q_utilityPlate5 i j / (p.metalrho * p.utilityPlate_Vcell * p.metalcp) +
    intraplate_cond s18 .utility5 i j
  let dTdt := wrap_T (Temps.mk dTdt_utility1 dTdt_reactant2 dTdt_fuel3
    dTdt_reactant4 dTdt_utility5 dTdt_utilityPlate1 dTdt_reactantPlate2
    dTdt_fuelPlate3 dTdt_reactantPlate4 dTdt_utilityPlate5)
  (s18, dTdt)

/-- Cell pitch in the utility flow direction,
`self.deltax = dimensions[1] + dimensions[4]` (source line 95). -/
def geom_deltax (d1 wall : α) : α := d1 + wall

/-- Cell pitch in the reactant flow direction,
`self.deltaz = dimensions[0] + dimensions[4]` (source line 97). -/
def geom_deltaz (d0 wall : α) : α := d0 + wall

/-- Area `self.hx_area_1 = dimensions[1]·Δz` (source line 128), commented as the
utility-fluid-1/utility-plate-5 and utility-fluid-5/reactant-plate-4 contact
area. -/
def geom_hx_area_1 (d0 d1 wall : α) : α := d1 * geom_deltaz d0 wall

/-- Area `self.hx_area_2 = Δx·Δz − hx_area_1` (source line 129), commented as the
plate-to-plate contact area of utility plates 1/5 and of utility plate
5/reactant plate 4. -/
def geom_hx_area_2 (d0 d1 wall : α) : α :=
  geom_deltax d1 wall * geom_deltaz d0 wall - geom_hx_area_1 d0 d1 wall

/-- Area `self.hx_area_4 = dimensions[0]·Δx` (source line 131). -/
def geom_hx_area_4 (d0 d1 wall : α) : α := d0 * geom_deltax d1 wall

/-- Area `self.hx_area_5 = Δx·Δz − hx_area_4` (source line 132), commented as the
reactant-plate-2/utility-plate-1, fuel-plate-3/reactant-plate-2 and
reactant-plate-4/fuel-plate-3 contact area. -/
def geom_hx_area_5 (d0 d1 wall : α) : α :=
  geom_deltax d1 wall * geom_deltaz d0 wall - geom_hx_area_4 d0 d1 wall

/-- A pressure field is strictly decreasing down the rows (the utility flow
direction) and everywhere strictly below the inlet value. -/
def strictDecRows (P : Grid r c α) (Pin : α) : Prop :=
  (∀ (i : Fin r) (j : Fin c) (h2 : (i : ℕ) + 1 < r), P ⟨(i : ℕ) + 1, h2⟩ j < P i j) ∧
  ∀ i j, P i j < Pin

/-- A pressure field is strictly decreasing along the columns (the
reactant/fuel flow direction) and everywhere strictly below the inlet
value. -/
def strictDecCols (P : Grid r c α) (Pin : α) : Prop :=
  (∀ (i : Fin r) (j : Fin c) (h2 : (j : ℕ) + 1 < c), P i ⟨(j : ℕ) + 1, h2⟩ < P i j) ∧
  ∀ i j, P i j < Pin

/-- A minimal test species over `ℚ`: only the fields a concrete evaluation
reads are nonzero. -/
def mkSp (a1l a1h a2l a2h mw : ℚ) : Species ℚ where
  key := "X"
  a1low := a1l
  a2low := a2l
  a3low := 0
  a4low := 0
  a5low := 0
  a1high := a1h
  a2high := a2h
  a3high := 0
  a4high := 0
  a5high := 0
  Tmin := 0
  epsOverKappa := 1
  sigma := 1
  dipole := 0
  polarizability := 0
  rotationalRelaxation := 0
  MW := mw
  shape := 0

/-- A single-species test stream over `ℚ`. -/
def mkStream (sp : Species ℚ) (w mdot Tin Pin : ℚ) : Stream 1 ℚ where
  comp := fun _ => (sp, w)
  mdot := mdot
  Tin := Tin
  Pin := Pin

/-- A cache whose every entry is the constant `v`, used to build concrete
test states. -/
def constCache (v : ℚ) : Cache r c nR nU nF ℚ where
  utility1_T := fun _ _ => v
  reactant2_T := fun _ _ => v
  fuel3_T := fun _ _ => v
  reactant4_T := fun _ _ => v
  utility5_T := fun _ _ => v
  utilityPlate1_T := fun _ _ => v
  reactantPlate2_T := fun _ _ => v
  fuelPlate3_T := fun _ _ => v
  reactantPlate4_T := fun _ _ => v
  utilityPlate5_T := fun _ _ => v
  cp_a1_reactant2 := fun _ _ => v
  cp_a2_reactant2 := fun _ _ => v
  cp_a3_reactant2 := fun _ _ => v
  cp_a4_reactant2 := fun _ _ => v
  cp_a5_reactant2 := fun _ _ => v
  cp_a1_reactant4 := fun _ _ => v
  cp_a2_reactant4 := fun _ _ => v
  cp_a3_reactant4 := fun _ _ => v
  cp_a4_reactant4 := fun _ _ => v
  cp_a5_reactant4 := fun _ _ => v
  cp_a1_utility1 := fun _ _ => v
  cp_a2_utility1 := fun _ _ => v
  cp_a3_utility1 := fun _ _ => v
  cp_a4_utility1 := fun _ _ => v
  cp_a5_utility1 := fun _ _ => v
  cp_a1_utility5 := fun _ _ => v
  cp_a2_utility5 := fun _ _ => v
  cp_a3_utility5 := fun _ _ => v
  cp_a4_utility5 := fun _ _ => v
  cp_a5_utility5 := fun _ _ => v
  cp_a1_fuel3 := fun _ _ => v
  cp_a2_fuel3 := fun _ _ => v
  cp_a3_fuel3 := fun _ _ => v
  cp_a4_fuel3 := fun _ _ => v
  cp_a5_fuel3 := fun _ _ => v
  reactant_molefrac := fun _ => v
  utility_molefrac := fun _ => v
  fuel_molefrac := fun _ => v
  reactant_MW := v
  utility_MW := v
  fuel_MW := v
  utility1_rho := fun _ _ => v
  reactant2_rho := fun _ _ => v
  fuel3_rho := fun _ _ => v
  reactant4_rho := fun _ _ => v
  utility5_rho := fun _ _ => v
  utility1_cp := fun _ _ => v
  reactant2_cp := fun _ _ => v
  fuel3_cp := fun _ _ => v
  reactant4_cp := fun _ _ => v
  utility5_cp := fun _ _ => v
  utility1_mu := fun _ _ => v
  reactant2_mu := fun _ _ => v
  fuel3_mu := fun _ _ => v
  reactant4_mu := fun _ _ => v
  utility5_mu := fun _ _ => v
  utility1_k := fun _ _ => v
  reactant2_k := fun _ _ => v
  fuel3_k := fun _ _ => v
  reactant4_k := fun _ _ => v
  utility5_k := fun _ _ => v
  utility1_u := fun _ _ => v
  reactant2_u := fun _ _ => v
  fuel3_u := fun _ _ => v
  reactant4_u := fun _ _ => v
  utility5_u := fun _ _ => v
  utility1_Pr := fun _ _ => v
  reactant2_Pr := fun _ _ => v
  fuel3_Pr := fun _ _ => v
  reactant4_Pr := fun _ _ => v
  utility5_Pr := fun _ _ => v
  utility1_Re := fun _ _ => v
  reactant2_Re := fun _ _ => v
  fuel3_Re := fun _ _ => v
  reactant4_Re := fun _ _ => v
  utility5_Re := fun _ _ => v
  utility1_f := fun _ _ => v
  reactant2_f := fun _ _ => v
  fuel3_f := fun _ _ => v
  reactant4_f := fun _ _ => v
  utility5_f := fun _ _ => v
  utility1_Nu := fun _ _ => v
  reactant2_Nu := fun _ _ => v
  fuel3_Nu := fun _ _ => v
  reactant4_Nu := fun _ _ => v
  utility5_Nu := fun _ _ => v
  utility1_h := fun _ _ => v
  reactant2_h := fun _ _ => v
  fuel3_h := fun _ _ => v
  reactant4_h := fun _ _ => v
  utility5_h := fun _ _ => v
  Q_utility1_fluid := fun _ _ => v
  Q_reactant2_fluid := fun _ _ => v
  Q_fuel3_fluid := fun _ _ => v
  Q_reactant4_fluid := fun _ _ => v
  Q_utility5_fluid := fun _ _ => v
  Q_utilityPlate1 := fun _ _ => v
  Q_reactantPlate2 := fun _ _ => v
  Q_fuelPlate3 := fun _ _ => v
  Q_reactantPlate4 := fun _ _ => v
  Q_utilityPlate5 := fun _ _ => v

/-- A persistent block with unit geometry constants and uniform pressure
fields at the stream inlet pressures (the `__init__` state of the pressure
profiles, source lines 109-113). -/
def basePersist (reactant utility fuel : Stream 1 ℚ) :
    Persist r c 1 1 1 ℚ where
  reactant := reactant
  utility := utility
  fuel := fuel
  dims := fun _ => 1
  reactant_cs := 1
  utility_cs := 1
  fuel_cs := 1
  reactant_dh := 1
  utility_dh := 1
  fuel_dh := 1
  aspect := 1
  deltax := 1
  deltay := 1
  deltaz := 1
  reactant_Vcell := 1
  utility_Vcell := 1
  fuel_Vcell := 1
  reactantPlate_Vcell := 1
  utilityPlate_Vcell := 1
  fuelPlate_Vcell := 1
  hx_area_1 := 1
  hx_area_2 := 1
  hx_area_3 := 1
  hx_area_4 := 1
  hx_area_5 := 1
  hx_area_6 := 1
  hx_area_rP_x := 1
  hx_area_rP_z := 1
  hx_area_uP_x := 1
  hx_area_uP_z := 1
  hx_area_fP_x := 1
  hx_area_fP_z := 1
  metalrho := 1
  metalcp := 1
  metalk := 1
  GC := 1
  C1 := 1
  C2 := 1
  C3 := 1
  C4 := 1
  gamma := 1
  reactant_L := fun _ => 1
  utility_L := fun _ => 1
  fuel_L := fun _ => 1
  utility1_P := fun _ _ => utility.Pin
  reactant2_P := fun _ _ => reactant.Pin
  fuel3_P := fun _ _ => fuel.Pin
  reactant4_P := fun _ _ => reactant.Pin
  utility5_P := fun _ _ => utility.Pin

/-- Concrete warm-mode test state for the pressure updater: the stored
reactant-pass-2 field is non-uniform (so the mode test fails and the warm
branch runs), all loss factors are zero, and the reactant and fuel inlet
pressures differ. -/
def C2state : State 2 2 1 1 1 ℚ where
  persist :=
    { basePersist (mkStream (mkSp 0 0 0 0 1) 1 1 900 9)
        (mkStream (mkSp 0 0 0 0 1) 1 1 700 100)
        (mkStream (mkSp 0 0 0 0 1) 1 1 500 7) with
      reactant2_P := ![![1, 2], ![3, 4]]
      utility1_P := ![![10, 20], ![30, 40]] }
  cache := constCache 0

/-- Concrete test state for the heat-capacity coefficients: a single utility
species whose low/high `a1` and `a2` coefficients are 1 and 2, with the
utility-pass-5 temperature at 1200 K and the utility-pass-1 temperature at
900 K. -/
def C3state : State 1 1 1 1 1 ℚ where
  persist := basePersist (mkStream (mkSp 1 2 1 2 1) 1 1 900 1)
    (mkStream (mkSp 1 2 1 2 1) 1 1 700 1)
    (mkStream (mkSp 1 2 1 2 1) 1 1 500 1)
  cache := { constCache 0 with
    utility5_T := fun _ _ => 1200
    utility1_T := fun _ _ => 900 }

/-- Concrete cold-mode test state for the pressure updater: uniform stored
pressure fields (so the mode test succeeds), unit geometry, and unit friction
factors, velocities and densities everywhere. -/
def C6state : State 2 2 1 1 1 ℚ where
  persist := basePersist (mkStream (mkSp 0 0 0 0 1) 1 1 900 100)
    (mkStream (mkSp 0 0 0 0 1) 1 1 700 100)
    (mkStream (mkSp 0 0 0 0 1) 1 1 500 100)
  cache := constCache 1

/-- Concrete test state for mole-fraction normalization: single-species
streams with positive mass fractions and molecular weights. -/
def C7state : State 1 1 1 1 1 ℚ where
  persist := basePersist (mkStream (mkSp 0 0 0 0 44) 1 1 900 1)
    (mkStream (mkSp 0 0 0 0 44) 1 1 700 1)
    (mkStream (mkSp 0 0 0 0 16) 1 1 500 1)
  cache := constCache 0

/-- Arithmetic core of the packing round trip: block index and in-block
offset reassemble the flat index. -/
theorem wrap_idx_eq {r c : ℕ} (k m : ℕ) (h : k / (r * c) = m) :
    m * (r * c) + ((k % (r * c)) / c * c + (k % (r * c)) % c) = k := by
  have h1 : (k % (r * c)) / c * c + (k % (r * c)) % c = k % (r * c) := by
    rw [mul_comm]
    exact Nat.div_add_mod _ c
  rw [h1, ← h, mul_comm]
  exact Nat.div_add_mod k (r * c)

/-- Claim C4: for every grid shape `(rows, columns)` and every flat vector of
length `10·rows·columns`, unpacking into the ten named grids with `unwrap_T`
and re-concatenating the raveled grids in the fixed field order (`wrap_T`)
reproduces the vector exactly, element for element. -/
theorem claim_C4 : ∀ (r c : ℕ) (v : Fin (10 * (r * c)) → ℝ),
    wrap_T (unwrap_T v) = v := by
  intro r c v
  funext k
  have hk := k.isLt
  have hrc : 0 < r * c := by
    rcases Nat.eq_zero_or_pos (r * c) with h | h
    · omega
    · exact h
  have hq9 : (k : ℕ) / (r * c) ≤ 9 := by
    by_contra hq
    push_neg at hq
    have h10 : 10 * (r * c) ≤ ((k : ℕ) / (r * c)) * (r * c) :=
      Nat.mul_le_mul_right _ hq
    have h11 : ((k : ℕ) / (r * c)) * (r * c) ≤ (k : ℕ) := Nat.div_mul_le_self _ _
    omega
  obtain ⟨q, hq⟩ : ∃ q, (k : ℕ) / (r * c) = q := ⟨_, rfl⟩
  show wrap_T (unwrap_T v) k = v k
  unfold wrap_T unwrap_T
  by_cases h0 : (k : ℕ) / (r * c) = 0
  · rw [if_pos h0]
    exact congrArg v (Fin.ext (wrap_idx_eq _ _ h0))
  by_cases h1 : (k : ℕ) / (r * c) = 1
  · rw [if_neg h0, if_pos h1]
    exact congrArg v (Fin.ext (wrap_idx_eq _ _ h1))
  by_cases h2 : (k : ℕ) / (r * c) = 2
  · rw [if_neg h0, if_neg h1, if_pos h2]
    exact congrArg v (Fin.ext (wrap_idx_eq _ _ h2))
  by_cases h3 : (k : ℕ) / (r * c) = 3
  · rw [if_neg h0, if_neg h1, if_neg h2, if_pos h3]
    exact congrArg v (Fin.ext (wrap_idx_eq _ _ h3))
  by_cases h4 : (k : ℕ) / (r * c) = 4
  · rw [if_neg h0, if_neg h1, if_neg h2, if_neg h3, if_pos h4]
    exact congrArg v (Fin.ext (wrap_idx_eq _ _ h4))
  by_cases h5 : (k : ℕ) / (r * c) = 5
  · rw [if_neg h0, if_neg h1, if_neg h2, if_neg h3, if_neg h4, if_pos h5]
    exact congrArg v (Fin.ext (wrap_idx_eq _ _ h5))
  by_cases h6 : (k : ℕ) / (r * c) = 6
  · rw [if_neg h0, if_neg h1, if_neg h2, if_neg h3, if_neg h4, if_neg h5, if_pos h6]
    exact congrArg v (Fin.ext (wrap_idx_eq _ _ h6))
  by_cases h7 : (k : ℕ) / (r * c) = 7
  · rw [if_neg h0, if_neg h1, if_neg h2, if_neg h3, if_neg h4, if_neg h5, if_neg h6, if_pos h7]
    exact congrArg v (Fin.ext (wrap_idx_eq _ _ h7))
  by_cases h8 : (k : ℕ) / (r * c) = 8
  · rw [if_neg h0, if_neg h1, if_neg h2, if_neg h3, if_neg h4, if_neg h5, if_neg h6, if_neg h7, if_pos h8]
    exact congrArg v (Fin.ext (wrap_idx_eq _ _ h8))
  · have h9 : (k : ℕ) / (r * c) = 9 := by
      rw [hq] at h0 h1 h2 h3 h4 h5 h6 h7 h8 hq9
      rw [hq]
      omega
    rw [if_neg h0, if_neg h1, if_neg h2, if_neg h3, if_neg h4, if_neg h5, if_neg h6, if_neg h7, if_neg h8]
    exact congrArg v (Fin.ext (wrap_idx_eq _ _ h9))

/-- Claim C5: at every cell the flow-correlation evaluator returns exactly
the laminar-family friction factor and Nusselt number when the cell Reynolds
number is `≤ 2300` (so `Re = 2300` selects the laminar branch) and exactly
the turbulent-family values when `Re > 2300`, with no blending; and each of
the five passes routes through this mask-blended core with its own Reynolds
and Prandtl grids. -/
theorem claim_C5 :
    (∀ {r c : ℕ} (Lplus zstar Re Pr : Grid r c ℝ) (aspect c1 c2 c3 c4 g : ℝ)
      (i : Fin r) (j : Fin c),
      (ff_Nu_core Lplus zstar Re Pr aspect c1 c2 c3 c4 g).1 i j =
        (if Re i j ≤ 2300 then laminar_f_cell (Lplus i j) (Re i j) aspect
         else turbulent_f_cell (Re i j)) ∧
      (ff_Nu_core Lplus zstar Re Pr aspect c1 c2 c3 c4 g).2 i j =
        (if Re i j ≤ 2300 then
          nusselt_laminar_cell (Lplus i j) (zstar i j) (Re i j) (Pr i j) aspect c1 c2 c3 c4 g
         else nusselt_turbulent_cell (Re i j) (Pr i j))) ∧
    (∀ {r c nR nU nF : ℕ} (s : State r c nR nU nF ℝ),
      (∃ Lp zs, ff_Nu s .utility1 = ff_Nu_core Lp zs s.cache.utility1_Re
        s.cache.utility1_Pr s.persist.aspect s.persist.C1 s.persist.C2
        s.persist.C3 s.persist.C4 s.persist.gamma) ∧
      (∃ Lp zs, ff_Nu s .reactant2 = ff_Nu_core Lp zs s.cache.reactant2_Re
        s.cache.reactant2_Pr s.persist.aspect s.persist.C1 s.persist.C2
        s.persist.C3 s.persist.C4 s.persist.gamma) ∧
      (∃ Lp zs, ff_Nu s .fuel3 = ff_Nu_core Lp zs s.cache.fuel3_Re
        s.cache.fuel3_Pr s.persist.aspect s.persist.C1 s.persist.C2
        s.persist.C3 s.persist.C4 s.persist.gamma) ∧
      (∃ Lp zs, ff_Nu s .reactant4 = ff_Nu_core Lp zs s.cache.reactant4_Re
        s.cache.reactant4_Pr s.persist.aspect s.persist.C1 s.persist.C2
        s.persist.C3 s.persist.C4 s.persist.gamma) ∧
      (∃ Lp zs, ff_Nu s .utility5 = ff_Nu_core Lp zs s.cache.utility5_Re
        s.cache.utility5_Pr s.persist.aspect s.persist.C1 s.persist.C2
        s.persist.C3 s.persist.C4 s.persist.gamma)) := by
  constructor
  · intro r c Lplus zstar Re Pr aspect c1 c2 c3 c4 g i j
    constructor
    · simp only [ff_Nu_core, mask]
      by_cases h : Re i j ≤ 2300
      · rw [if_pos h, if_pos h, if_neg (not_lt.2 h)]
        ring
      · rw [if_neg h, if_neg h, if_pos (lt_of_not_le h)]
        ring
    · simp only [ff_Nu_core, mask]
      by_cases h : Re i j ≤ 2300
      · rw [if_pos h, if_pos h, if_neg (not_lt.2 h)]
        ring
      · rw [if_neg h, if_neg h, if_pos (lt_of_not_le h)]
        ring
  · intro r c nR nU nF s
    exact ⟨⟨_, _, rfl⟩, ⟨_, _, rfl⟩, ⟨_, _, rfl⟩, ⟨_, _, rfl⟩, ⟨_, _, rfl⟩⟩

/-- For a nonzero index the circular backward shift is the plain
predecessor. -/
theorem rollDec_eq_pred {n : ℕ} (i : Fin n) (h : (i : ℕ) ≠ 0) :
    rollDec i = ⟨(i : ℕ) - 1, Nat.lt_of_le_of_lt (Nat.sub_le _ _) i.isLt⟩ := by
  unfold rollDec
  apply Fin.ext
  show ((i : ℕ) + (n - 1)) % n = (i : ℕ) - 1
  have hn := i.isLt
  rw [show (i : ℕ) + (n - 1) = ((i : ℕ) - 1) + n by omega, Nat.add_mod_right]
  exact Nat.mod_eq_of_lt (by omega)

/-- Claim C8: for every fluid pass the advective-transfer operator returns,
at the inlet boundary row (utility passes) or column (reactant and fuel
passes), the stream's fixed inlet temperature minus the local temperature,
and at every other cell the upstream cell's temperature minus the local one;
consequently, on a grid uniformly equal to the inlet temperature it returns
zero everywhere, boundary included. -/
theorem claim_C8 :
    (∀ {r c nR nU nF : ℕ} (s : State r c nR nU nF ℝ) (i : Fin r) (j : Fin c),
      (advective_transfer s .utility1 i j =
        if (i : ℕ) = 0 then s.persist.utility.Tin - s.cache.utility1_T i j
        else s.cache.utility1_T ⟨(i : ℕ) - 1, Nat.lt_of_le_of_lt (Nat.sub_le _ _) i.isLt⟩ j -
          s.cache.utility1_T i j) ∧
      (advective_transfer s .reactant2 i j =
        if (j : ℕ) = 0 then s.persist.reactant.Tin - s.cache.reactant2_T i j
        else s.cache.reactant2_T i ⟨(j : ℕ) - 1, Nat.lt_of_le_of_lt (Nat.sub_le _ _) j.isLt⟩ -
          s.cache.reactant2_T i j) ∧
      (advective_transfer s .fuel3 i j =
        if (j : ℕ) = 0 then s.persist.fuel.Tin - s.cache.fuel3_T i j
        else s.cache.fuel3_T i ⟨(j : ℕ) - 1, Nat.lt_of_le_of_lt (Nat.sub_le _ _) j.isLt⟩ -
          s.cache.fuel3_T i j) ∧
      (advective_transfer s .reactant4 i j =
        if (j : ℕ) = 0 then s.persist.reactant.Tin - s.cache.reactant4_T i j
        else s.cache.reactant4_T i ⟨(j : ℕ) - 1, Nat.lt_of_le_of_lt (Nat.sub_le _ _) j.isLt⟩ -
          s.cache.reactant4_T i j) ∧
      (advective_transfer s .utility5 i j =
        if (i : ℕ) = 0 then s.persist.utility.Tin - s.cache.utility5_T i j
        else s.cache.utility5_T ⟨(i : ℕ) - 1, Nat.lt_of_le_of_lt (Nat.sub_le _ _) i.isLt⟩ j -
          s.cache.utility5_T i j)) ∧
    (∀ {r c nR nU nF : ℕ} (s : State r c nR nU nF ℝ) (i : Fin r) (j : Fin c),
      (advective_transfer
        { s with cache := { s.cache with utility1_T := fun _ _ => s.persist.utility.Tin } }
        .utility1 i j = 0) ∧
      (advective_transfer
        { s with cache := { s.cache with reactant2_T := fun _ _ => s.persist.reactant.Tin } }
        .reactant2 i j = 0) ∧
      (advective_transfer
        { s with cache := { s.cache with fuel3_T := fun _ _ => s.persist.fuel.Tin } }
        .fuel3 i j = 0) ∧
      (advective_transfer
        { s with cache := { s.cache with reactant4_T := fun _ _ => s.persist.reactant.Tin } }
        .reactant4 i j = 0) ∧
      (advective_transfer
        { s with cache := { s.cache with utility5_T := fun _ _ => s.persist.utility.Tin } }
        .utility5 i j = 0)) := by
  constructor
  · intro r c nR nU nF s i j
    refine ⟨?_, ?_, ?_, ?_, ?_⟩ <;> simp only [advective_transfer]
    · by_cases h : (i : ℕ) = 0
      · rw [if_pos h, if_pos h]
      · rw [if_neg h, if_neg h, rollDec_eq_pred i h]
    · by_cases h : (j : ℕ) = 0
      · rw [if_pos h, if_pos h]
      · rw [if_neg h, if_neg h, rollDec_eq_pred j h]
    · by_cases h : (j : ℕ) = 0
      · rw [if_pos h, if_pos h]
      · rw [if_neg h, if_neg h, rollDec_eq_pred j h]
    · by_cases h : (j : ℕ) = 0
      · rw [if_pos h, if_pos h]
      · rw [if_neg h, if_neg h, rollDec_eq_pred j h]
    · by_cases h : (i : ℕ) = 0
      · rw [if_pos h, if_pos h]
      · rw [if_neg h, if_neg h, rollDec_eq_pred i h]
  · intro r c nR nU nF s i j
    refine ⟨?_, ?_, ?_, ?_, ?_⟩ <;> simp only [advective_transfer]
    · by_cases h : (i : ℕ) = 0 <;> simp [h]
    · by_cases h : (j : ℕ) = 0 <;> simp [h]
    · by_cases h : (j : ℕ) = 0 <;> simp [h]
    · by_cases h : (j : ℕ) = 0 <;> simp [h]
    · by_cases h : (i : ℕ) = 0 <;> simp [h]

/-- The derivative vector returned by `transient_solver` is a function of
the persistent block (streams, geometry, property data, stored pressures)
and the input vector alone: every scratch attribute it reads is overwritten
earlier in the same call, so two states agreeing on the persistent block
produce identical outputs for any pair of time arguments. -/
theorem transient_output_persist {r c nR nU nF : ℕ}
    (s1 s2 : State r c nR nU nF ℝ) (t1 t2 : ℝ) (T : Fin (10 * (r * c)) → ℝ)
    (h : s1.persist = s2.persist) :
    (transient_solver s1 t1 T).2 = (transient_solver s2 t2 T).2 := by
  cases s1 with
  | mk p1 c1 =>
    cases s2 with
    | mk p2 c2 =>
      obtain rfl : p1 = p2 := h
      rfl

/-- Claim C9: the RHS assembler is referentially consistent on a fixed
instance: calling `transient_solver` again immediately after a first call,
with the identical `(t, state vector)` arguments, returns an element-wise
identical derivative vector — the scratch attributes the first call wrote do
not influence the second call's output. -/
theorem claim_C9 {r c nR nU nF : ℕ} (s : State r c nR nU nF ℝ) (t : ℝ)
    (T : Fin (10 * (r * c)) → ℝ) :
    (transient_solver ((transient_solver s t T).1) t T).2 =
      (transient_solver s t T).2 :=
  transient_output_persist _ _ _ _ _ rfl

/-- Claim C10: evaluating the RHS assembler leaves all five stored pressure
fields exactly as they were, for every state and every input. -/
theorem claim_C10 {r c nR nU nF : ℕ} (s : State r c nR nU nF ℝ) (t : ℝ)
    (T : Fin (10 * (r * c)) → ℝ) :
    ((transient_solver s t T).1).persist.utility1_P = s.persist.utility1_P ∧
    ((transient_solver s t T).1).persist.reactant2_P = s.persist.reactant2_P ∧
    ((transient_solver s t T).1).persist.fuel3_P = s.persist.fuel3_P ∧
    ((transient_solver s t T).1).persist.reactant4_P = s.persist.reactant4_P ∧
    ((transient_solver s t T).1).persist.utility5_P = s.persist.utility5_P :=
  ⟨rfl, rfl, rfl, rfl, rfl⟩

/-- Claim C1 (refuted; the code violates pairwise cancellation):  the heat
rates of source lines 955-972 decompose into per-pair terms, and pairs like
(utility-5 fluid, reactant plate 4) do cancel exactly — but the
(utility-5 fluid, utility plate 5) pair multiplies `hx_area_5` on the fluid
side (line 959) and `hx_area_1` on the plate side (line 965), so with the
default geometry `dims = [0.0015, 0.0015, 10, 10, 0.0011, 0.0021]`, unit
transfer coefficient and temperatures 0/1, the two sides of that pair sum to
`hx_area_5 − hx_area_1 ≠ 0`; likewise the (utility plate 1, utility plate 5)
conduction pair multiplies `hx_area_2` on one side (line 968) and
`hx_area_5` on the other (line 972), which differ whenever
`dims[0] ≠ dims[1]` (shown at `d0 = 0.002`). -/
theorem claim_C1 :
    (∀ {r c : ℕ} (h : Grid r c ℝ) (A1 A5 : ℝ) (rP4 uP5 u5 : Grid r c ℝ)
      (i : Fin r) (j : Fin c),
      Q_utility5_fluid h A1 A5 rP4 uP5 u5 i j =
        Q_u5f_pair_rP4 h A1 rP4 u5 i j + Q_u5f_pair_uP5 h A5 uP5 u5 i j) ∧
    (∀ {r c : ℕ} (h5 h1 : Grid r c ℝ) (A1 : ℝ) (u5 u1 uP5 : Grid r c ℝ)
      (i : Fin r) (j : Fin c),
      Q_utilityPlate5_conv h5 h1 A1 u5 u1 uP5 i j =
        Q_uP5_pair_u5 h5 A1 u5 uP5 i j + h1 i j * A1 * (u1 i j - uP5 i j)) ∧
    (∀ {r c : ℕ} (mk A5 : ℝ) (rP4 uP1 uP5 : Grid r c ℝ)
      (i : Fin r) (j : Fin c),
      Q_utilityPlate5_cond mk A5 rP4 uP1 uP5 i j =
        mk * (A5 * (rP4 i j - uP5 i j)) + Q_uP5_pair_uP1 mk A5 uP1 uP5 i j) ∧
    (∀ {r c : ℕ} (h : Grid r c ℝ) (A1 : ℝ) (rP4 u5 : Grid r c ℝ)
      (i : Fin r) (j : Fin c),
      Q_u5f_pair_rP4 h A1 rP4 u5 i j + Q_rP4_pair_u5 h A1 u5 rP4 i j = 0) ∧
    (Q_u5f_pair_uP5 (fun _ _ => (1 : ℝ)) (geom_hx_area_5 0.0015 0.0015 0.0011)
        (fun _ _ => (1 : ℝ)) (fun _ _ => (0 : ℝ)) (0 : Fin 1) (0 : Fin 1) +
      Q_uP5_pair_u5 (fun _ _ => (1 : ℝ)) (geom_hx_area_1 0.0015 0.0015 0.0011)
        (fun _ _ => (0 : ℝ)) (fun _ _ => (1 : ℝ)) (0 : Fin 1) (0 : Fin 1) ≠ 0) ∧
    (Q_uP1_pair_uP5 (50 : ℝ) (geom_hx_area_2 0.002 0.0015 0.0011)
        (fun _ _ => (1 : ℝ)) (fun _ _ => (0 : ℝ)) (0 : Fin 1) (0 : Fin 1) +
      Q_uP5_pair_uP1 (50 : ℝ) (geom_hx_area_5 0.002 0.0015 0.0011)
        (fun _ _ => (0 : ℝ)) (fun _ _ => (1 : ℝ)) (0 : Fin 1) (0 : Fin 1) ≠ 0) := by
  refine ⟨?_, ?_, ?_, ?_, ?_, ?_⟩
  · intro r c h A1 A5 rP4 uP5 u5 i j
    simp only [Q_utility5_fluid, Q_u5f_pair_rP4, Q_u5f_pair_uP5]
    ring
  · intro r c h5 h1 A1 u5 u1 uP5 i j
    simp only [Q_utilityPlate5_conv, Q_uP5_pair_u5]
  · intro r c mk A5 rP4 uP1 uP5 i j
    simp only [Q_utilityPlate5_cond, Q_uP5_pair_uP1]
    ring
  · intro r c h A1 rP4 u5 i j
    simp only [Q_u5f_pair_rP4, Q_rP4_pair_u5]
    ring
  · simp only [Q_u5f_pair_uP5, Q_uP5_pair_u5, geom_hx_area_5, geom_hx_area_1,
      geom_hx_area_4, geom_deltax, geom_deltaz]
    norm_num
  · simp only [Q_uP1_pair_uP5, Q_uP5_pair_uP1, geom_hx_area_2, geom_hx_area_5,
      geom_hx_area_1, geom_hx_area_4, geom_deltax, geom_deltaz]
    norm_num

/-- Claim C2 (refuted on the inlet-edge resets; the shift part holds): on the
concrete warm-mode state `C2state` (non-uniform stored reactant field, zero
losses), the utility-pass-1 cell `(0, 1)` — an inlet-row cell, which the
claim says is reset to the utility boundary condition — instead holds the
wrapped-around shifted value (the code resets the first *column*, source
line 861), and the fuel-pass-3 inlet cell is reset from the *reactant*
inlet pressure (source line 865), not the fuel one. -/
theorem claim_C2 :
    ((update_pressures C2state).persist.utility1_P 0 1 =
      C2state.persist.utility1_P 1 1 -
        deltaP_grid C2state.cache.utility1_f C2state.persist.deltaz
          C2state.persist.utility_dh C2state.cache.utility1_u
          C2state.cache.utility1_rho 0 1) ∧
    ((update_pressures C2state).persist.utility1_P 0 1 ≠
      C2state.persist.utility.Pin -
        deltaP_grid C2state.cache.utility1_f C2state.persist.deltaz
          C2state.persist.utility_dh C2state.cache.utility1_u
          C2state.cache.utility1_rho 0 1) ∧
    ((update_pressures C2state).persist.fuel3_P 0 0 =
      C2state.persist.reactant.Pin -
        deltaP_grid C2state.cache.fuel3_f C2state.persist.deltax
          C2state.persist.fuel_dh C2state.cache.fuel3_u
          C2state.cache.fuel3_rho 0 0) ∧
    ((update_pressures C2state).persist.fuel3_P 0 0 ≠
      C2state.persist.fuel.Pin -
        deltaP_grid C2state.cache.fuel3_f C2state.persist.deltax
          C2state.persist.fuel_dh C2state.cache.fuel3_u
          C2state.cache.fuel3_rho 0 0) := by
  have hmean : ¬ (gridMean C2state.persist.reactant2_P =
      C2state.persist.reactant2_P 0 0) := by
    simp [C2state, basePersist, mkStream, gridMean, Fin.sum_univ_two]
    norm_num
  refine ⟨?_, ?_, ?_, ?_⟩ <;>
    · simp only [update_pressures]
      rw [if_neg hmean]
      simp [C2state, basePersist, mkStream, mkSp, constCache, deltaP_grid, rollDec]

/-- Claim C3 (refuted on two points): (i) the `cp_a1_utility5` coefficient is
gated on `utility1_T` for its high-range part (source line 317): on `C3state`
(own temperature 1200 K, utility-pass-1 temperature 900 K) it evaluates to 0
— neither coefficient set contributes — while the correctly gated
`cp_a2_utility5` evaluates to the high-range value 2; and (ii) the fuel-pass
heat capacity is converted to a mass basis dividing by `utility_MW` (source
line 564), not the fuel stream's mean molecular weight. -/
theorem claim_C3 :
    ((mol_frac_and_cp C3state).cache.cp_a1_utility5 0 0 = 0) ∧
    ((mol_frac_and_cp C3state).cache.cp_a2_utility5 0 0 = 2) ∧
    (∀ {α : Type} [LinearOrderedField α] {r c nR nU nF : ℕ}
      (s : State r c nR nU nF α),
      (mol_frac_and_cp s).cache.cp_a1_utility5 =
        cpCoeffGrid s.persist.utility.comp (fun sp => sp.a1low)
          (fun sp => sp.a1high) s.cache.utility5_T s.cache.utility1_T) ∧
    (∀ {r c nR nU nF : ℕ} (s : State r c nR nU nF ℝ) (i : Fin r) (j : Fin c),
      ((properties s .fuel3).1).cache.fuel3_cp i j =
        cp_cell (s.cache.cp_a1_fuel3 i j) (s.cache.cp_a2_fuel3 i j)
          (s.cache.cp_a3_fuel3 i j) (s.cache.cp_a4_fuel3 i j)
          (s.cache.cp_a5_fuel3 i j) (s.cache.fuel3_T i j) * s.persist.GC /
          s.cache.utility_MW * 1000) := by
  refine ⟨?_, ?_, ?_, ?_⟩
  · simp [mol_frac_and_cp, cpCoeffGrid, nmol, mask, C3state, constCache,
      basePersist, mkStream, mkSp, Fin.sum_univ_one]
    norm_num
  · simp [mol_frac_and_cp, cpCoeffGrid, nmol, mask, C3state, constCache,
      basePersist, mkStream, mkSp, Fin.sum_univ_one]
    norm_num
  · intro α inst r c nR nU nF s
    rfl
  · intro r c nR nU nF s i j
    rfl

/-- One marching step subtracts a positive loss, so the pressure strictly
decreases. -/
theorem marchFrom_succ_lt {α : Type} [LinearOrderedField α] (Pin : α)
    (dP : ℕ → α) (k : ℕ) (h : 0 < dP (k + 1)) :
    marchFrom Pin dP (k + 1) < marchFrom Pin dP k := by
  simp only [marchFrom]
  exact sub_lt_self _ h

/-- Under positive losses the marched pressure stays strictly below the inlet
value. -/
theorem marchFrom_lt_inlet {α : Type} [LinearOrderedField α] (Pin : α)
    (dP : ℕ → α) (k : ℕ) (h : ∀ m, m ≤ k → 0 < dP m) :
    marchFrom Pin dP k < Pin := by
  induction k with
  | zero => simpa [marchFrom] using sub_lt_self Pin (h 0 le_rfl)
  | succ n ih =>
    exact (marchFrom_succ_lt Pin dP n (h (n + 1) le_rfl)).trans
      (ih fun m hm => h m (hm.trans (Nat.le_succ n)))

/-- The Bernoulli loss is positive at a cell with positive friction factor,
velocity and density and valid (positive) pitch and hydraulic diameter. -/
theorem deltaP_pos {r c : ℕ} {α : Type} [LinearOrderedField α]
    (f : Grid r c α) (Δ dh : α) (u rho : Grid r c α) (i : Fin r) (j : Fin c)
    (hf : 0 < f i j) (hΔ : 0 < Δ) (hdh : 0 < dh) (hu : 0 < u i j)
    (hrho : 0 < rho i j) : 0 < deltaP_grid f Δ dh u rho i j := by
  unfold deltaP_grid
  positivity

/-- A field marched down the rows from a positive per-cell loss is strictly
decreasing along the rows and strictly below the inlet value. -/
theorem march_strictDecRows {r c : ℕ} {α : Type} [LinearOrderedField α]
    (Pin : α) (dP : Grid r c α) (hdP : ∀ i j, 0 < dP i j) :
    strictDecRows (fun (i : Fin r) (j : Fin c) =>
      marchFrom Pin (fun k => if h : k < r then dP ⟨k, h⟩ j else 0) (i : ℕ)) Pin := by
  constructor
  · intro i j h2
    show marchFrom _ _ ((i : ℕ) + 1) < marchFrom _ _ (i : ℕ)
    apply marchFrom_succ_lt
    rw [dif_pos h2]
    exact hdP _ _
  · intro i j
    apply marchFrom_lt_inlet
    intro m hm
    have hmr : m < r := lt_of_le_of_lt hm i.isLt
    rw [dif_pos hmr]
    exact hdP _ _

/-- A field marched along the columns from a positive per-cell loss is
strictly decreasing along the columns and strictly below the inlet value. -/
theorem march_strictDecCols {r c : ℕ} {α : Type} [LinearOrderedField α]
    (Pin : α) (dP : Grid r c α) (hdP : ∀ i j, 0 < dP i j) :
    strictDecCols (fun (i : Fin r) (j : Fin c) =>
      marchFrom Pin (fun k => if h : k < c then dP i ⟨k, h⟩ else 0) (j : ℕ)) Pin := by
  constructor
  · intro i j h2
    show marchFrom _ _ ((j : ℕ) + 1) < marchFrom _ _ (j : ℕ)
    apply marchFrom_succ_lt
    rw [dif_pos h2]
    exact hdP _ _
  · intro i j
    apply marchFrom_lt_inlet
    intro m hm
    have hmc : m < c := lt_of_le_of_lt hm j.isLt
    rw [dif_pos hmc]
    exact hdP _ _

/-- Claim C6: after a cold-mode pressure update (the branch taken when the
stored reactant-pass-2 field's mean equals its corner entry) in which every
per-cell friction factor, velocity and density is positive — and the
geometry pitches and hydraulic diameters are positive, as construction
assumes — each pass's pressure field is strictly decreasing along its own
flow direction (rows for the utility passes, columns for the reactant and
fuel passes) and every cell is strictly below that stream's inlet
pressure. -/
theorem claim_C6 {r c nR nU nF : ℕ} [NeZero r] [NeZero c] {α : Type}
    [LinearOrderedField α] (s : State r c nR nU nF α)
    (hcold : gridMean s.persist.reactant2_P = s.persist.reactant2_P 0 0)
    (hdx : 0 < s.persist.deltax) (hdz : 0 < s.persist.deltaz)
    (hrdh : 0 < s.persist.reactant_dh) (hudh : 0 < s.persist.utility_dh)
    (hfdh : 0 < s.persist.fuel_dh)
    (hu1 : ∀ i j, 0 < s.cache.utility1_f i j ∧ 0 < s.cache.utility1_u i j ∧
      0 < s.cache.utility1_rho i j)
    (hr2 : ∀ i j, 0 < s.cache.reactant2_f i j ∧ 0 < s.cache.reactant2_u i j ∧
      0 < s.cache.reactant2_rho i j)
    (hf3 : ∀ i j, 0 < s.cache.fuel3_f i j ∧ 0 < s.cache.fuel3_u i j ∧
      0 < s.cache.fuel3_rho i j)
    (hr4 : ∀ i j, 0 < s.cache.reactant4_f i j ∧ 0 < s.cache.reactant4_u i j ∧
      0 < s.cache.reactant4_rho i j)
    (hu5 : ∀ i j, 0 < s.cache.utility5_f i j ∧ 0 < s.cache.utility5_u i j ∧
      0 < s.cache.utility5_rho i j) :
    strictDecRows (update_pressures s).persist.utility1_P s.persist.utility.Pin ∧
    strictDecCols (update_pressures s).persist.reactant2_P s.persist.reactant.Pin ∧
    strictDecCols (update_pressures s).persist.fuel3_P s.persist.fuel.Pin ∧
    strictDecCols (update_pressures s).persist.reactant4_P s.persist.reactant.Pin ∧
    strictDecRows (update_pressures s).persist.utility5_P s.persist.utility.Pin := by
  have hcoldall :
      (update_pressures s).persist.utility1_P = (fun (i : Fin r) (j : Fin c) =>
        marchFrom s.persist.utility.Pin (fun k => if h : k < r then
          deltaP_grid s.cache.utility1_f s.persist.deltaz s.persist.utility_dh
            s.cache.utility1_u s.cache.utility1_rho ⟨k, h⟩ j else 0) (i : ℕ)) ∧
      (update_pressures s).persist.reactant2_P = (fun (i : Fin r) (j : Fin c) =>
        marchFrom s.persist.reactant.Pin (fun k => if h : k < c then
          deltaP_grid s.cache.reactant2_f s.persist.deltax s.persist.reactant_dh
            s.cache.reactant2_u s.cache.reactant2_rho i ⟨k, h⟩ else 0) (j : ℕ)) ∧
      (update_pressures s).persist.fuel3_P = (fun (i : Fin r) (j : Fin c) =>
        marchFrom s.persist.fuel.Pin (fun k => if h : k < c then
          deltaP_grid s.cache.fuel3_f s.persist.deltax s.persist.fuel_dh
            s.cache.fuel3_u s.cache.fuel3_rho i ⟨k, h⟩ else 0) (j : ℕ)) ∧
      (update_pressures s).persist.reactant4_P = (fun (i : Fin r) (j : Fin c) =>
        marchFrom s.persist.reactant.Pin (fun k => if h : k < c then
          deltaP_grid s.cache.reactant4_f s.persist.deltax s.persist.reactant_dh
            s.cache.reactant4_u s.cache.reactant4_rho i ⟨k, h⟩ else 0) (j : ℕ)) ∧
      (update_pressures s).persist.utility5_P = (fun (i : Fin r) (j : Fin c) =>
        marchFrom s.persist.utility.Pin (fun k => if h : k < r then
          deltaP_grid s.cache.utility5_f s.persist.deltaz s.persist.utility_dh
            s.cache.utility5_u s.cache.utility5_rho ⟨k, h⟩ j else 0) (i : ℕ)) := by
    simp only [update_pressures]
    rw [if_pos hcold]
    exact ⟨rfl, rfl, rfl, rfl, rfl⟩
  obtain ⟨e1, e2, e3, e4, e5⟩ := hcoldall
  refine ⟨?_, ?_, ?_, ?_, ?_⟩
  · rw [e1]
    exact march_strictDecRows _ _ fun i j =>
      deltaP_pos _ _ _ _ _ i j (hu1 i j).1 hdz hudh (hu1 i j).2.1 (hu1 i j).2.2
  · rw [e2]
    exact march_strictDecCols _ _ fun i j =>
      deltaP_pos _ _ _ _ _ i j (hr2 i j).1 hdx hrdh (hr2 i j).2.1 (hr2 i j).2.2
  · rw [e3]
    exact march_strictDecCols _ _ fun i j =>
      deltaP_pos _ _ _ _ _ i j (hf3 i j).1 hdx hfdh (hf3 i j).2.1 (hf3 i j).2.2
  · rw [e4]
    exact march_strictDecCols _ _ fun i j =>
      deltaP_pos _ _ _ _ _ i j (hr4 i j).1 hdx hrdh (hr4 i j).2.1 (hr4 i j).2.2
  · rw [e5]
    exact march_strictDecRows _ _ fun i j =>
      deltaP_pos _ _ _ _ _ i j (hu5 i j).1 hdz hudh (hu5 i j).2.1 (hu5 i j).2.2

/-- Witness for claim C6 at the concrete cold-mode state `C6state` (uniform
stored pressures, unit friction factors, velocities, densities and
geometry). -/
theorem claim_C6_witness :
    strictDecRows (update_pressures C6state).persist.utility1_P
      C6state.persist.utility.Pin ∧
    strictDecCols (update_pressures C6state).persist.reactant2_P
      C6state.persist.reactant.Pin ∧
    strictDecCols (update_pressures C6state).persist.fuel3_P
      C6state.persist.fuel.Pin ∧
    strictDecCols (update_pressures C6state).persist.reactant4_P
      C6state.persist.reactant.Pin ∧
    strictDecRows (update_pressures C6state).persist.utility5_P
      C6state.persist.utility.Pin :=
  claim_C6 C6state
    (by
      simp [C6state, basePersist, mkStream, gridMean, Fin.sum_univ_two]
      norm_num)
    (by norm_num [C6state, basePersist])
    (by norm_num [C6state, basePersist])
    (by norm_num [C6state, basePersist])
    (by norm_num [C6state, basePersist])
    (by norm_num [C6state, basePersist])
    (fun i j => by norm_num [C6state, constCache])
    (fun i j => by norm_num [C6state, constCache])
    (fun i j => by norm_num [C6state, constCache])
    (fun i j => by norm_num [C6state, constCache])
    (fun i j => by norm_num [C6state, constCache])

/-- Normalized mole fractions of a composition with non-negative mass
fractions (one positive) and positive molecular weights are non-negative and
sum to one. -/
theorem molefracOf_props {n : ℕ} {α : Type} [LinearOrderedField α]
    (comp : Fin n → Species α × α)
    (hw : ∀ k, 0 ≤ (comp k).2) (hpos : ∃ k, 0 < (comp k).2)
    (hMW : ∀ k, 0 < (comp k).1.MW) :
    (∀ k, 0 ≤ molefracOf comp k) ∧ (∑ k, molefracOf comp k) = 1 := by
  have hnn : ∀ k, 0 ≤ nmol comp k := fun k => div_nonneg (hw k) (hMW k).le
  have hsum : 0 < ∑ m, nmol comp m := by
    obtain ⟨k0, hk0⟩ := hpos
    exact Finset.sum_pos' (fun k _ => hnn k)
      ⟨k0, Finset.mem_univ _, div_pos hk0 (hMW k0)⟩
  constructor
  · intro k
    exact div_nonneg (hnn k) hsum.le
  · unfold molefracOf
    rw [← Finset.sum_div, div_self hsum.ne']

/-- Claim C7: for each of the three streams, if the composition has
non-negative mass fractions with at least one positive, and the table
molecular weights are positive, then the mole fractions derived by
`mol_frac_and_cp` are all non-negative and sum exactly to one. -/
theorem claim_C7 {r c nR nU nF : ℕ} {α : Type} [LinearOrderedField α]
    (s : State r c nR nU nF α)
    (hRw : ∀ k, 0 ≤ (s.persist.reactant.comp k).2)
    (hRpos : ∃ k, 0 < (s.persist.reactant.comp k).2)
    (hRMW : ∀ k, 0 < (s.persist.reactant.comp k).1.MW)
    (hUw : ∀ k, 0 ≤ (s.persist.utility.comp k).2)
    (hUpos : ∃ k, 0 < (s.persist.utility.comp k).2)
    (hUMW : ∀ k, 0 < (s.persist.utility.comp k).1.MW)
    (hFw : ∀ k, 0 ≤ (s.persist.fuel.comp k).2)
    (hFpos : ∃ k, 0 < (s.persist.fuel.comp k).2)
    (hFMW : ∀ k, 0 < (s.persist.fuel.comp k).1.MW) :
    ((∀ k, 0 ≤ (mol_frac_and_cp s).cache.reactant_molefrac k) ∧
      (∑ k, (mol_frac_and_cp s).cache.reactant_molefrac k) = 1) ∧
    ((∀ k, 0 ≤ (mol_frac_and_cp s).cache.utility_molefrac k) ∧
      (∑ k, (mol_frac_and_cp s).cache.utility_molefrac k) = 1) ∧
    ((∀ k, 0 ≤ (mol_frac_and_cp s).cache.fuel_molefrac k) ∧
      (∑ k, (mol_frac_and_cp s).cache.fuel_molefrac k) = 1) :=
  ⟨molefracOf_props _ hRw hRpos hRMW, molefracOf_props _ hUw hUpos hUMW,
    molefracOf_props _ hFw hFpos hFMW⟩

/-- Witness for claim C7 at the concrete state `C7state` (single-species
CO2/CO2/CH4-like streams with unit mass fractions and positive molecular
weights). -/
theorem claim_C7_witness :
    ((∀ k, 0 ≤ (mol_frac_and_cp C7state).cache.reactant_molefrac k) ∧
      (∑ k, (mol_frac_and_cp C7state).cache.reactant_molefrac k) = 1) ∧
    ((∀ k, 0 ≤ (mol_frac_and_cp C7state).cache.utility_molefrac k) ∧
      (∑ k, (mol_frac_and_cp C7state).cache.utility_molefrac k) = 1) ∧
    ((∀ k, 0 ≤ (mol_frac_and_cp C7state).cache.fuel_molefrac k) ∧
      (∑ k, (mol_frac_and_cp C7state).cache.fuel_molefrac k) = 1) :=
  claim_C7 C7state
    (fun k => by norm_num [C7state, basePersist, mkStream, mkSp])
    ⟨0, by norm_num [C7state, basePersist, mkStream, mkSp]⟩
    (fun k => by norm_num [C7state, basePersist, mkStream, mkSp])
    (fun k => by norm_num [C7state, basePersist, mkStream, mkSp])
    ⟨0, by norm_num [C7state, basePersist, mkStream, mkSp]⟩
    (fun k => by norm_num [C7state, basePersist, mkStream, mkSp])
    (fun k => by norm_num [C7state, basePersist, mkStream, mkSp])
    ⟨0, by norm_num [C7state, basePersist, mkStream, mkSp]⟩
    (fun k => by norm_num [C7state, basePersist, mkStream, mkSp])

end PCHE
